import Mathlib

/-!
# Sensor telemetry service: validation, handlers and repositories

Shallow embedding of the Go packages `api` (dto.go, handler.go) and
`repository` (sensor.go, measurement.go).  The database drivers, the clock
and the validation library are the collaborators of that code; drivers and
clock appear as fields of the repository structures, the validation rules
used by dto.go are embedded rule by rule.
-/

namespace Pingthings

/-! ## Values of Go's float64 -/

/-- Values of Go's `float64`: the finite ones carried by their exact rational
value (both signed zeros are `finite 0`), the two infinities and NaN. -/
inductive Float64 where
  | finite (q : ℚ)
  | posInf
  | negInf
  | nan
  deriving DecidableEq

namespace Float64

instance : Inhabited Float64 := ⟨finite 0⟩

/-- Go's `v == 0` on a float64. -/
def isZero : Float64 → Bool
  | finite q => decide (q = 0)
  | _ => false

/-- Go's `a <= b` on float64 (every comparison with NaN is false). -/
def le : Float64 → Float64 → Bool
  | nan, _ => false
  | _, nan => false
  | negInf, _ => true
  | _, posInf => true
  | finite a, finite b => decide (a ≤ b)
  | finite _, negInf => false
  | posInf, finite _ => false
  | posInf, negInf => false

/-- Go's `a >= b` on float64. -/
def ge (a b : Float64) : Bool := le b a

/-- The value is a real number of the closed interval `[lo, hi]`. -/
def InClosedInterval (lo hi : ℚ) (x : Float64) : Prop :=
  ∃ q : ℚ, x = finite q ∧ lo ≤ q ∧ q ≤ hi

end Float64

/-! ## The validation rules used by dto.go (go-ozzo/ozzo-validation v4) -/

namespace validator

/-- Error objects returned by the rules that dto.go installs. -/
inductive RuleError where
  /-- The error `ErrRequired` of `validator.Required`. -/
  | ErrRequired
  /-- The error `ErrMinGreaterEqualThanRequired` of `validator.Min(threshold)`. -/
  | ErrMinGreaterEqualThanRequired (threshold : Float64)
  /-- The error `ErrMaxLessEqualThanRequired` of `validator.Max(threshold)`. -/
  | ErrMaxLessEqualThanRequired (threshold : Float64)
  /-- The error `ErrLengthTooShort` of `validator.Length(min, 0)`. -/
  | ErrLengthTooShort (min : Nat)
  deriving DecidableEq

/-- Message of an error object; the threshold and length messages are the
library's templates, whose parameter is rendered by `Error()`. -/
def RuleError.Message : RuleError → String
  | .ErrRequired => "cannot be blank"
  | .ErrMinGreaterEqualThanRequired _ => "must be no less than \x7b\x7b.threshold\x7d\x7d"
  | .ErrMaxLessEqualThanRequired _ => "must be no greater than \x7b\x7b.threshold\x7d\x7d"
  | .ErrLengthTooShort _ => "the length must be no less than \x7b\x7b.min\x7d\x7d"

/-- The library's `IsEmpty` on a string: `v.Len() == 0`. -/
def IsEmptyString (s : String) : Bool := s.utf8ByteSize == 0

/-- The library's `IsEmpty` on a float64: `v.Float() == 0`. -/
def IsEmptyFloat (f : Float64) : Bool := f.isZero

/-- The library's `IsEmpty` on a slice (nil or not): `v.Len() == 0`. -/
def IsEmptySlice {α : Type} (l : List α) : Bool := l.length == 0

/-- Rule `validator.Required` on a string field. -/
def RequiredString (s : String) : Option RuleError :=
  if IsEmptyString s then some .ErrRequired else none

/-- Rule `validator.Required` on a float64 field. -/
def RequiredFloat (f : Float64) : Option RuleError :=
  if IsEmptyFloat f then some .ErrRequired else none

/-- Rule `validator.Required` on a slice field. -/
def RequiredSlice {α : Type} (l : List α) : Option RuleError :=
  if IsEmptySlice l then some .ErrRequired else none

/-- Rule `validator.Required` on a struct field that is not a `time.Time`:
`IsEmpty` is false for it, so the rule never fails. -/
def RequiredStruct {α : Type} (_v : α) : Option RuleError := none

/-- Rule `validator.Min(threshold)` on a float64: empty values are skipped,
otherwise `value >= threshold` is required. -/
def Min (threshold : Float64) (f : Float64) : Option RuleError :=
  if IsEmptyFloat f then none
  else if Float64.ge f threshold then none
  else some (.ErrMinGreaterEqualThanRequired threshold)

/-- Rule `validator.Max(threshold)` on a float64: empty values are skipped,
otherwise `value <= threshold` is required. -/
def Max (threshold : Float64) (f : Float64) : Option RuleError :=
  if IsEmptyFloat f then none
  else if Float64.le f threshold then none
  else some (.ErrMaxLessEqualThanRequired threshold)

/-- Rule `validator.Length(min, max)` on a slice: empty values are skipped,
then `min > 0 && l < min || max > 0 && l > max || min == 0 && max == 0 && l > 0`
fails; the error object is the one the library builds for `min > 0, max == 0`,
the only shape dto.go uses. -/
def Length {α : Type} (min max : Nat) (l : List α) : Option RuleError :=
  if IsEmptySlice l then none
  else if (decide (min > 0) && decide (l.length < min))
      || (decide (max > 0) && decide (l.length > max))
      || (decide (min = 0) && decide (max = 0) && decide (l.length > 0))
    then some (.ErrLengthTooShort min)
  else none

/-- The library's `Validate(value, rules...)`: the first failing rule gives the
error of the field. -/
def firstError {α : Type} (rules : List (α → Option RuleError)) (v : α) : Option RuleError :=
  match rules with
  | [] => none
  | r :: rs =>
    match r v with
    | some e => some e
    | none => firstError rs v

/-- The library's `Errors` of a struct without nested structs: the failing
fields, by their JSON name, in the order of the field rules. -/
abbrev FlatErrors := List (String × RuleError)

/-- Error of one field of a struct: a rule error, or the `Errors` of a nested
struct that validates itself. -/
inductive FieldError where
  | rule (e : RuleError)
  | nested (errs : FlatErrors)
  deriving DecidableEq

/-- The library's `Errors` of a struct whose fields may be structs. -/
abbrev Errors := List (String × FieldError)

/-- One entry of `ValidateStructWithContext`: the field is recorded under its
JSON name when its validation returned an error. -/
def fieldEntry {ε : Type} (name : String) (err : Option ε) : List (String × ε) :=
  match err with
  | some e => [(name, e)]
  | none => []

/-- End of `ValidateStructWithContext`: `if len(errs) > 0 { return errs }; return nil`. -/
def result {ε : Type} (errs : List (String × ε)) : Option (List (String × ε)) :=
  if errs.length > 0 then some errs else none

/-- Flagged fields of an `Errors` value, as dotted paths with their message. -/
def flagged (errs : Errors) : List (String × String) :=
  errs.flatMap fun entry =>
    match entry.2 with
    | .rule e => [(entry.1, e.Message)]
    | .nested sub => sub.map fun inner => (entry.1 ++ "." ++ inner.1, inner.2.Message)

end validator

/-! ## Time -/

/-- Go's `time.Time`, as the wall-clock instant it denotes: seconds since
January 1, year 1 00:00:00 UTC and nanoseconds within the second. -/
structure Time where
  sec : Int
  nsec : Nat
  deriving DecidableEq

/-- Go's zero `time.Time`. -/
def Time.zero : Time := ⟨0, 0⟩

instance : Inhabited Time := ⟨Time.zero⟩

/-- Go's `Time.IsZero`. -/
def Time.IsZero (t : Time) : Bool := t.sec == 0 && t.nsec == 0

/-- Go's `Time.Before`, on readings whose nanoseconds are below one second. -/
def Time.Before (t u : Time) : Bool :=
  decide (t.sec < u.sec) || (decide (t.sec = u.sec) && decide (t.nsec < u.nsec))

/-! ## api/dto.go -/

namespace api

/-- The struct `Location` of dto.go. -/
structure Location where
  Longitude : Float64
  Latitude : Float64
  deriving DecidableEq

/-- The method `Location.ValidateWithContext` of dto.go. -/
def Location.ValidateWithContext (l : Location) : Option validator.FlatErrors :=
  validator.result
    (validator.fieldEntry "longitude"
        (validator.firstError
          [validator.RequiredFloat, validator.Min (.finite (-180)), validator.Max (.finite 180)]
          l.Longitude)
      ++ validator.fieldEntry "latitude"
        (validator.firstError
          [validator.RequiredFloat, validator.Min (.finite (-90)), validator.Max (.finite 90)]
          l.Latitude))

/-- The struct `Sensor` of dto.go; a nil `Tags` slice and an empty one are
both the empty list. -/
structure Sensor where
  ID : String
  Name : String
  Location : Location
  Tags : List String
  deriving DecidableEq

/-- The library's `Validate` on the `Location` field: the rules first, then,
the value being `ValidatableWithContext`, its own `ValidateWithContext`. -/
def validateLocationField (l : Location) : Option validator.FieldError :=
  match validator.firstError [validator.RequiredStruct] l with
  | some e => some (.rule e)
  | none =>
    match l.ValidateWithContext with
    | some errs => some (.nested errs)
    | none => none

/-- The method `Sensor.ValidateWithContext` of dto.go. -/
def Sensor.ValidateWithContext (s : Sensor) : Option validator.Errors :=
  validator.result
    (validator.fieldEntry "name"
        ((validator.firstError [validator.RequiredString] s.Name).map .rule)
      ++ validator.fieldEntry "location" (validateLocationField s.Location)
      ++ validator.fieldEntry "tags"
        ((validator.firstError [validator.RequiredSlice, validator.Length 1 0] s.Tags).map .rule))

/-- The struct `Measurement` of dto.go. -/
structure Measurement where
  Name : String
  SensorID : String
  Unit : String
  Value : Float64
  Timestamp : Time
  deriving DecidableEq

/-- The method `Measurement.ValidateWithContext` of dto.go. -/
def Measurement.ValidateWithContext (m : Measurement) : Option validator.Errors :=
  validator.result
    (validator.fieldEntry "name"
        ((validator.firstError [validator.RequiredString] m.Name).map .rule)
      ++ validator.fieldEntry "unit"
        ((validator.firstError [validator.RequiredString] m.Unit).map .rule)
      ++ validator.fieldEntry "value"
        ((validator.firstError [validator.RequiredFloat] m.Value).map .rule))

end api

/-! ## Collaborators of the repository package -/

/-- Values of Go's `error` that the repository functions return. -/
inductive Error where
  /-- The driver's sentinel `mongo.ErrNoDocuments`. -/
  | ErrNoDocuments
  /-- The driver's sentinel `primitive.ErrInvalidHex`. -/
  | ErrInvalidHex
  /-- Any other error value produced by a driver. -/
  | driver (msg : String)
  /-- An error built by `fmt.Errorf(msg + ": %w", inner)`. -/
  | wrap (msg : String) (inner : Error)
  /-- An error built by `fmt.Errorf` without a wrapped error. -/
  | errorf (msg : String)
  deriving DecidableEq

namespace primitive

/-- The driver's `primitive.ObjectID`, a `[12]byte`. -/
structure ObjectID where
  bytes : List Nat
  deriving DecidableEq

/-- The driver's `primitive.NilObjectID`, the zero value of the type. -/
def NilObjectID : ObjectID := ⟨List.replicate 12 0⟩

/-- The value is a `[12]byte`: twelve entries, each a byte. -/
def ObjectID.WellFormed (id : ObjectID) : Prop :=
  id.bytes.length = 12 ∧ ∀ b ∈ id.bytes, b < 256

/-- Go's `fromHexChar` of encoding/hex. -/
def fromHexChar (c : Char) : Option Nat :=
  if '0' ≤ c ∧ c ≤ '9' then some (c.toNat - '0'.toNat)
  else if 'a' ≤ c ∧ c ≤ 'f' then some (c.toNat - 'a'.toNat + 10)
  else if 'A' ≤ c ∧ c ≤ 'F' then some (c.toNat - 'A'.toNat + 10)
  else none

/-- Go's `hex.Decode`: two digits per byte, failing on an odd length or on a
character that is no hexadecimal digit. -/
def decodeHex : List Char → Option (List Nat)
  | [] => some []
  | [_] => none
  | a :: b :: rest =>
    match fromHexChar a, fromHexChar b, decodeHex rest with
    | some hi, some lo, some tl => some ((hi * 16 + lo) :: tl)
    | _, _, _ => none

/-- The driver's `primitive.ObjectIDFromHex`: the text must be 24 bytes long and
decode as hexadecimal. -/
def ObjectIDFromHex (s : String) : Except Error ObjectID :=
  if s.utf8ByteSize ≠ 24 then .error .ErrInvalidHex
  else
    match decodeHex s.toList with
    | some bytes => .ok ⟨bytes⟩
    | none => .error (.driver "encoding/hex: invalid byte")

/-- The driver's `ObjectID.Hex`: lower-case hexadecimal, two digits per byte. -/
def ObjectID.Hex (id : ObjectID) : String :=
  String.mk (id.bytes.flatMap fun b => [Nat.digitChar (b / 16), Nat.digitChar (b % 16)])

end primitive

/-- Dynamic values of Go's `interface{}` as the time-series client decodes them
from a result row. -/
inductive Value where
  | nil
  | string (s : String)
  | float64 (f : Float64)
  | int64 (i : Int)
  | uint64 (n : Nat)
  | bool (b : Bool)
  | time (t : Time)
  | bytes (b : List Nat)
  deriving DecidableEq

/-- The client's `FluxRecord`, by what its accessors return. -/
structure FluxRecord where
  /-- Return value of `Record().Result()`. -/
  Result : String
  /-- Return value of `Record().Value()`. -/
  Value : Pingthings.Value
  /-- Return value of `Record().ValueByKey(key)`. -/
  ValueByKey : String → Pingthings.Value

/-- State of the client's `QueryTableResult` after a call of `Next` that
returned true. -/
structure RowState where
  /-- Return value of `result.Err()`. -/
  Err : Option Error
  /-- Return value of `result.TableChanged()`. -/
  TableChanged : Bool
  /-- Return value of `result.Record()`. -/
  Record : FluxRecord

/-- The client's `QueryTableResult`: the states reached by the calls of `Next`
that return true, and the value of `Err()` once `Next` has returned false. -/
structure QueryTableResult where
  rows : List RowState
  finalErr : Option Error

/-- The client's `write.Point`. -/
structure Point where
  measurement : String
  tags : List (String × String)
  fields : List (String × Value)
  time : Time
  deriving DecidableEq

/-- The client's `influxdb2.NewPointWithMeasurement`. -/
def NewPointWithMeasurement (measurement : String) : Point :=
  { measurement := measurement, tags := [], fields := [], time := Time.zero }

/-- The client's `Point.AddTag`. -/
def Point.AddTag (p : Point) (k v : String) : Point :=
  { p with tags := p.tags ++ [(k, v)] }

/-- The client's `Point.AddField`. -/
def Point.AddField (p : Point) (k : String) (v : Value) : Point :=
  { p with fields := p.fields ++ [(k, v)] }

/-- The client's `Point.SetTime`. -/
def Point.SetTime (p : Point) (t : Time) : Point :=
  { p with time := t }

/-! ## repository/sensor.go -/

namespace repository

/-- The struct `GeoJSONPoint` of sensor.go (`Type_` is its field `Type`). -/
structure GeoJSONPoint where
  Type_ : String
  Coordinates : List Float64
  deriving DecidableEq

/-- The struct `Sensor` of sensor.go. -/
structure Sensor where
  ID : primitive.ObjectID
  Name : String
  Location : GeoJSONPoint
  Tags : List String
  deriving DecidableEq

/-- The `$near` filter that `GetNearestSensor` builds. -/
structure NearFilter where
  geometryType : String
  coordinates : List Float64
  maxDistance : Float64
  deriving DecidableEq

/-- The `$set` document that `UpdateSensor` builds. -/
structure SetDocument where
  name : String
  location : GeoJSONPoint
  tags : List String
  deriving DecidableEq

/-- The driver's `mongo.UpdateResult`. -/
structure UpdateResult where
  MatchedCount : Int
  ModifiedCount : Int
  UpsertedCount : Int
  deriving DecidableEq

/-- The document store behind `sensorsColl`, by the answers of the driver to the
calls that sensor.go makes. -/
structure Collection where
  /-- Result of `InsertOne(ctx, sensor)`: the inserted identifier or an error. -/
  InsertOne : Sensor → Except Error primitive.ObjectID
  /-- Result of `FindOne(ctx, bson.M\x7b"_id": objectID\x7d).Decode(&sensor)`. -/
  FindOneByID : primitive.ObjectID → Except Error Sensor
  /-- Result of `FindOne(ctx, bson.M\x7b"name": name\x7d).Decode(&sensor)`. -/
  FindOneByName : String → Except Error Sensor
  /-- Result of `FindOne(ctx, bson.M\x7b"location": ...\x7d).Decode(&sensor)`. -/
  FindOneNear : NearFilter → Except Error Sensor
  /-- Result of `UpdateByID(ctx, objectID, bson.M\x7b"$set": ...\x7d)`: the
  update result, with the number of records matched, or an error. -/
  UpdateByID : primitive.ObjectID → SetDocument → Except Error UpdateResult

/-- The struct `SensorsRepository` of sensor.go. -/
structure SensorsRepository where
  sensorsColl : Collection

/-- One call made to a store during a request, in the order of the calls. -/
inductive StoreCall where
  | InsertOne (sensor : Sensor)
  | FindOneByID (objectID : primitive.ObjectID)
  | FindOneByName (name : String)
  | FindOneNear (filter : NearFilter)
  | UpdateByID (objectID : primitive.ObjectID) (set : SetDocument)
  | WritePoint (p : Point)
  | Query (query : String)
  deriving DecidableEq

/-- Whether the call is a write of a point to the time-series store. -/
def StoreCall.isWritePoint : StoreCall → Bool
  | .WritePoint _ => true
  | _ => false

/-- Whether the call is a lookup in the sensor collection. -/
def StoreCall.isFindOne : StoreCall → Bool
  | .FindOneByID _ => true
  | .FindOneByName _ => true
  | .FindOneNear _ => true
  | _ => false

/-- Return values `(*Sensor, error)` of the lookups of sensor.go, with the
store calls made. -/
structure SensorResult where
  sensor : Option Sensor
  err : Option Error
  calls : List StoreCall
  deriving DecidableEq

/-- The method `SensorsRepository.GetSensorByID` of sensor.go. -/
def SensorsRepository.GetSensorByID (s : SensorsRepository) (id : String) : SensorResult :=
  match primitive.ObjectIDFromHex id with
  | .error err => { sensor := none, err := some err, calls := [] }
  | .ok objectID =>
    match s.sensorsColl.FindOneByID objectID with
    | .error err => { sensor := none, err := some err, calls := [.FindOneByID objectID] }
    | .ok sensor => { sensor := some sensor, err := none, calls := [.FindOneByID objectID] }

/-- The method `SensorsRepository.GetSensorByName` of sensor.go. -/
def SensorsRepository.GetSensorByName (s : SensorsRepository) (name : String) : SensorResult :=
  match s.sensorsColl.FindOneByName name with
  | .error err => { sensor := none, err := some err, calls := [.FindOneByName name] }
  | .ok sensor => { sensor := some sensor, err := none, calls := [.FindOneByName name] }

/-- The filter of `GetNearestSensor`: a `Point` with coordinates
`[longitude, latitude]` and the `$maxDistance`. -/
def nearFilter (latitude longitude maxDistance : Float64) : NearFilter :=
  { geometryType := "Point", coordinates := [longitude, latitude], maxDistance := maxDistance }

/-- The method `SensorsRepository.GetNearestSensor` of sensor.go. -/
def SensorsRepository.GetNearestSensor (s : SensorsRepository)
    (latitude longitude maxDistance : Float64) : SensorResult :=
  let filter := nearFilter latitude longitude maxDistance
  match s.sensorsColl.FindOneNear filter with
  | .error err =>
    if err = Error.ErrNoDocuments then
      { sensor := none, err := none, calls := [.FindOneNear filter] }
    else
      { sensor := none, err := some err, calls := [.FindOneNear filter] }
  | .ok sensor => { sensor := some sensor, err := none, calls := [.FindOneNear filter] }

/-- Return value of `CreateSensor` and `UpdateSensor`, with the sensor behind
the pointer after the call and the store calls made. -/
structure SensorWriteResult where
  err : Option Error
  sensor : Sensor
  calls : List StoreCall
  deriving DecidableEq

/-- The method `SensorsRepository.CreateSensor` of sensor.go. -/
def SensorsRepository.CreateSensor (s : SensorsRepository) (sensor : Sensor) :
    SensorWriteResult :=
  match s.sensorsColl.InsertOne sensor with
  | .error err => { err := some err, sensor := sensor, calls := [.InsertOne sensor] }
  | .ok insertedID =>
    { err := none, sensor := { sensor with ID := insertedID }, calls := [.InsertOne sensor] }

/-- The method `SensorsRepository.UpdateSensor` of sensor.go. -/
def SensorsRepository.UpdateSensor (s : SensorsRepository) (id : String) (sensor : Sensor) :
    SensorWriteResult :=
  match primitive.ObjectIDFromHex id with
  | .error err => { err := some err, sensor := sensor, calls := [] }
  | .ok objectID =>
    let set : SetDocument :=
      { name := sensor.Name, location := sensor.Location, tags := sensor.Tags }
    let err : Option Error :=
      match s.sensorsColl.UpdateByID objectID set with
      | .error err => some err
      | .ok _ => none
    { err := err, sensor := { sensor with ID := objectID }, calls := [.UpdateByID objectID set] }

/-! ## repository/measurement.go -/

/-- The struct `Measurement` of measurement.go. -/
structure Measurement where
  Name : String
  SensorID : String
  Unit : String
  Value : Float64
  Timestamp : Time
  deriving DecidableEq

/-- The struct `MeasurementSummary` of measurement.go; `Count` is a Go `int`,
of 64 bits like the `int64` it is converted from. -/
structure MeasurementSummary where
  MinValue : Float64
  MaxValue : Float64
  MedianValue : Float64
  MeanValue : Float64
  Unit : String
  Count : Int
  deriving DecidableEq

/-- The client's `WriteAPIBlocking`, by the error its `WritePoint` returns. -/
structure WriteAPIBlocking where
  WritePoint : Point → Option Error

/-- The client's `QueryAPI`, by what its `Query` returns. -/
structure QueryAPI where
  Query : String → Except Error QueryTableResult

/-- The struct `MeasurementRepository` of measurement.go. -/
structure MeasurementRepository where
  bucket : String
  writeAPI : WriteAPIBlocking
  queryAPI : QueryAPI

/-- Return value of `CreateMeasurement`, with the measurement behind the
pointer after the call and the store calls made. -/
structure CreateResult where
  err : Option Error
  measurement : Measurement
  calls : List StoreCall
  deriving DecidableEq

/-- The point that `CreateMeasurement` builds. -/
def measurementPoint (measurement : Measurement) (timestamp : Time) : Point :=
  ((((NewPointWithMeasurement measurement.Name).AddTag "unit" measurement.Unit).AddTag
    "sensor_id" measurement.SensorID).AddField "value" (.float64 measurement.Value)).SetTime
    timestamp

/-- The method `MeasurementRepository.CreateMeasurement` of measurement.go;
`now` is the reading of `time.Now()` taken by the call. -/
def MeasurementRepository.CreateMeasurement (m : MeasurementRepository) (now : Time)
    (measurement : Measurement) : CreateResult :=
  let timestamp := now
  let p := measurementPoint measurement timestamp
  match m.writeAPI.WritePoint p with
  | some err =>
    { err := some (.wrap "failed to write the measurement point" err),
      measurement := measurement, calls := [.WritePoint p] }
  | none =>
    { err := none, measurement := { measurement with Timestamp := timestamp },
      calls := [.WritePoint p] }

/-- The query text that `GetMeasurementSummary` formats with `fmt.Sprintf`;
`start` and `stop` are the two times already rendered by
`Format(time.RFC3339)`. -/
def summaryQuery (bucket start stop measurement sensorID unit : String) : String :=
  "result = from(bucket: \"" ++ bucket ++ "\")\n"
    ++ "\t\t\t|> range(start: " ++ start ++ ", stop: " ++ stop ++ ")\n"
    ++ "\t\t\t|> filter(fn: (r) => r[\"_measurement\"] == \"" ++ measurement ++ "\")\n"
    ++ "\t\t\t|> filter(fn: (r) => r[\"sensor_id\"] == \"" ++ sensorID ++ "\")\n"
    ++ "\t\t\t|> filter(fn: (r) => r[\"unit\"] == \"" ++ unit ++ "\")\n"
    ++ "\t\t\t\n"
    ++ "\t\tresult\n"
    ++ "\t\t\t|> aggregateWindow(every: 1d, fn: mean, createEmpty: false)\n"
    ++ "\t\t\t|> yield(name: \"mean\")\n"
    ++ "\n"
    ++ "\t\tresult\n"
    ++ "\t\t\t|> aggregateWindow(every: 1d, fn: median, createEmpty: false)\n"
    ++ "\t\t\t|> yield(name: \"median\")\n"
    ++ "\n"
    ++ "\t\tresult\n"
    ++ "\t\t\t|> count()\n"
    ++ "\t\t\t|> yield(name: \"count\")\n"
    ++ "\n"
    ++ "\t\tresult\n"
    ++ "\t\t\t|> min()\n"
    ++ "\t\t\t|> yield(name: \"min\")\n"
    ++ "\n"
    ++ "\t\tresult\n"
    ++ "\t\t\t|> min()\n"
    ++ "\t\t\t|> yield(name: \"max\")"

/-- The constant `meanResultName` of `GetMeasurementSummary`. -/
def meanResultName : String := "mean"

/-- The constant `medianResultName` of `GetMeasurementSummary`. -/
def medianResultName : String := "median"

/-- The constant `countResultName` of `GetMeasurementSummary`. -/
def countResultName : String := "count"

/-- The constant `minResultName` of `GetMeasurementSummary`. -/
def minResultName : String := "min"

/-- The constant `maxResultName` of `GetMeasurementSummary`. -/
def maxResultName : String := "max"

/-- The value `MeasurementSummary\x7b\x7d` with which the loop starts. -/
def emptySummary : MeasurementSummary :=
  { MinValue := .finite 0, MaxValue := .finite 0, MedianValue := .finite 0,
    MeanValue := .finite 0, Unit := "", Count := 0 }

/-- The block `if measurementSummary.Unit == ""` of the loop: the unit of the
record is captured while none is held, and must be a string. -/
def captureUnit (measurementSummary : MeasurementSummary) (record : FluxRecord) :
    Except Error MeasurementSummary :=
  if measurementSummary.Unit = "" then
    match record.ValueByKey "unit" with
    | .string unit => .ok { measurementSummary with Unit := unit }
    | _ => .error (.errorf "unexpected type for unit value")
  else .ok measurementSummary

/-- The `switch resultName` of the loop. -/
def dispatchResult (measurementSummary : MeasurementSummary) (record : FluxRecord) :
    Except Error MeasurementSummary :=
  let resultName := record.Result
  if resultName = meanResultName then
    match record.Value with
    | .float64 meanValue => .ok { measurementSummary with MeanValue := meanValue }
    | _ => .error (.errorf "unexpected type for mean value")
  else if resultName = medianResultName then
    match record.Value with
    | .float64 medianValue => .ok { measurementSummary with MedianValue := medianValue }
    | _ => .error (.errorf "unexpected type for median value")
  else if resultName = countResultName then
    match record.Value with
    | .int64 count => .ok { measurementSummary with Count := count }
    | _ => .error (.errorf "unexpected type for count value")
  else if resultName = minResultName then
    match record.Value with
    | .float64 minValue => .ok { measurementSummary with MinValue := minValue }
    | _ => .error (.errorf "unexpected type for min value")
  else if resultName = maxResultName then
    match record.Value with
    | .float64 maxValue => .ok { measurementSummary with MaxValue := maxValue }
    | _ => .error (.errorf "unexpected type for max value")
  else .error (.errorf ("unexpected result name: " ++ resultName))

/-- One pass through the body of `for result.Next()`. -/
def summaryRow (measurementSummary : MeasurementSummary) (row : RowState) :
    Except Error MeasurementSummary :=
  match row.Err with
  | some err => .error (.wrap "query error" err)
  | none =>
    if !row.TableChanged then .ok measurementSummary
    else
      match captureUnit measurementSummary row.Record with
      | .error err => .error err
      | .ok withUnit => dispatchResult withUnit row.Record

/-- The loop `for result.Next()`: it runs over the rows until one of them
returns, and ends when `Next` returns false. -/
def summaryLoop (measurementSummary : MeasurementSummary) :
    List RowState → Except Error MeasurementSummary
  | [] => .ok measurementSummary
  | row :: rest =>
    match summaryRow measurementSummary row with
    | .error err => .error err
    | .ok next => summaryLoop next rest

/-- The method `MeasurementRepository.GetMeasurementSummary` of measurement.go;
`formatRFC3339` is `Time.Format(time.RFC3339)` and `end_` the parameter `end`.
After the loop nothing is read from the result any more. -/
def MeasurementRepository.GetMeasurementSummary (m : MeasurementRepository)
    (formatRFC3339 : Time → String) (sensorID measurement unit : String) (start end_ : Time) :
    Except Error MeasurementSummary :=
  let query := summaryQuery m.bucket (formatRFC3339 start) (formatRFC3339 end_)
    measurement sensorID unit
  match m.queryAPI.Query query with
  | .error err => .error (.wrap "failed to query measurement summary" err)
  | .ok result => summaryLoop emptySummary result.rows

end repository

/-! ## api/handler.go -/

namespace api

/-- The function `mapAPIMeasurementToDBMeasurement` of dto.go. -/
def mapAPIMeasurementToDBMeasurement (apiMeasurement : Measurement) : repository.Measurement :=
  { Name := apiMeasurement.Name,
    SensorID := apiMeasurement.SensorID,
    Unit := apiMeasurement.Unit,
    Value := apiMeasurement.Value,
    Timestamp := apiMeasurement.Timestamp }

/-- JSON bodies that the handlers send. -/
inductive Body where
  /-- The body `fiber.Map\x7b"error": msg\x7d`. -/
  | error (msg : String)
  /-- The body `fiber.Map\x7b"error": msg, "details": err\x7d`. -/
  | invalid (msg : String) (details : validator.Errors)
  /-- The body `c.JSON(measurement)`. -/
  | measurement (m : Measurement)
  /-- The body `c.JSON(mapDBSensorToAPISensor(dbSensor))`. -/
  | sensor (s : Sensor)
  deriving DecidableEq

/-- Status and body of a response. -/
structure Response where
  status : Nat
  body : Body
  deriving DecidableEq

/-- The constant `fiber.StatusOK`, the status of a response on which none was set. -/
def StatusOK : Nat := 200

/-- The constant `fiber.StatusCreated`. -/
def StatusCreated : Nat := 201

/-- The constant `fiber.StatusBadRequest`. -/
def StatusBadRequest : Nat := 400

/-- The constant `fiber.StatusNotFound`. -/
def StatusNotFound : Nat := 404

/-- The constant `fiber.StatusInternalServerError`. -/
def StatusInternalServerError : Nat := 500

/-- The handler `PostMeasurement` of handler.go: `id` is `c.Params("id")`,
`body` what `c.BodyParser` decoded (`none` when it returned an error) and `now`
the clock reading of the request.  The result is the response and the store
calls made, in order. -/
def PostMeasurement (sensorsRepository : repository.SensorsRepository)
    (measurementRepository : repository.MeasurementRepository) (now : Time)
    (id : String) (body : Option Measurement) : Response × List repository.StoreCall :=
  match body with
  | none => ({ status := StatusBadRequest, body := .error "invalid request body" }, [])
  | some measurement =>
    match measurement.ValidateWithContext with
    | some err =>
      ({ status := StatusBadRequest, body := .invalid "invalid measurement" err }, [])
    | none =>
      let found := sensorsRepository.GetSensorByID id
      match found.err with
      | some _ =>
        ({ status := StatusInternalServerError, body := .error "failed to get sensor" },
          found.calls)
      | none =>
        match found.sensor with
        | none => ({ status := StatusNotFound, body := .error "sensor not found" }, found.calls)
        | some sensor =>
          let dbMeasurement :=
            { mapAPIMeasurementToDBMeasurement measurement with SensorID := sensor.ID.Hex }
          let created := measurementRepository.CreateMeasurement now dbMeasurement
          match created.err with
          | some _ =>
            ({ status := StatusInternalServerError,
               body := .error "failed to create measurement" },
              found.calls ++ created.calls)
          | none =>
            ({ status := StatusCreated,
               body := .measurement
                 { measurement with
                   SensorID := created.measurement.SensorID,
                   Timestamp := created.measurement.Timestamp } },
              found.calls ++ created.calls)

/-- The function `mapDBSensorToAPISensor` of dto.go; `none` when indexing
`Coordinates[0]` or `Coordinates[1]` is out of range, which panics. -/
def mapDBSensorToAPISensor (dbSensor : repository.Sensor) : Option Sensor :=
  match dbSensor.Location.Coordinates with
  | longitude :: latitude :: _ =>
    some
      { ID := dbSensor.ID.Hex,
        Name := dbSensor.Name,
        Location := { Longitude := longitude, Latitude := latitude },
        Tags := dbSensor.Tags }
  | _ => none

/-- The literal `&repository.Sensor\x7b...\x7d` that `PostSensor` and `PutSensor`
build from the payload; its `ID` is the zero value. -/
def newDBSensor (sensor : Sensor) : repository.Sensor :=
  { ID := primitive.NilObjectID,
    Name := sensor.Name,
    Location :=
      { Type_ := "Point",
        Coordinates := [sensor.Location.Longitude, sensor.Location.Latitude] },
    Tags := sensor.Tags }

/-- The response of a handler that sends the mapped sensor: `none` when the
mapping panics. -/
def sensorResponse (status : Nat) (dbSensor : repository.Sensor) : Option Response :=
  (mapDBSensorToAPISensor dbSensor).map fun s => { status := status, body := .sensor s }

/-- The handler `PostSensor` of handler.go: `body` is what `c.BodyParser`
decoded (`none` when it returned an error).  The result is the response
(`none` when the handler panics) and the store calls made. -/
def PostSensor (sensorsRepository : repository.SensorsRepository) (body : Option Sensor) :
    Option Response × List repository.StoreCall :=
  match body with
  | none => (some { status := StatusBadRequest, body := .error "invalid request body" }, [])
  | some sensor =>
    match sensor.ValidateWithContext with
    | some err =>
      (some { status := StatusBadRequest, body := .invalid "invalid sensor" err }, [])
    | none =>
      let created := sensorsRepository.CreateSensor (newDBSensor sensor)
      match created.err with
      | some _ =>
        (some { status := StatusInternalServerError, body := .error "failed to create sensor" },
          created.calls)
      | none => (sensorResponse StatusCreated created.sensor, created.calls)

/-- The handler `GetSensorByID` of handler.go: `id` is `c.Params("id")`.  The
response is `none` when the handler panics (nil sensor, or too few
coordinates). -/
def GetSensorByID (sensorsRepository : repository.SensorsRepository) (id : String) :
    Option Response × List repository.StoreCall :=
  let found := sensorsRepository.GetSensorByID id
  match found.err with
  | some _ =>
    (some { status := StatusInternalServerError, body := .error "failed to get sensor" },
      found.calls)
  | none =>
    match found.sensor with
    | none => (none, found.calls)
    | some dbSensor => (sensorResponse StatusOK dbSensor, found.calls)

/-- The handler `PutSensor` of handler.go: `id` is `c.Params("id")`, `body` what
`c.BodyParser` decoded (`none` when it returned an error). -/
def PutSensor (sensorsRepository : repository.SensorsRepository) (id : String)
    (body : Option Sensor) : Option Response × List repository.StoreCall :=
  match body with
  | none => (some { status := StatusBadRequest, body := .error "invalid request body" }, [])
  | some sensor =>
    match sensor.ValidateWithContext with
    | some err =>
      (some { status := StatusBadRequest, body := .invalid "invalid sensor" err }, [])
    | none =>
      let updated := sensorsRepository.UpdateSensor id (newDBSensor sensor)
      match updated.err with
      | some _ =>
        (some { status := StatusInternalServerError, body := .error "failed to update sensor" },
          updated.calls)
      | none => (sensorResponse StatusOK updated.sensor, updated.calls)

end api

/-! ## Reference notions and sample stores -/

namespace repository

/-- The result names that the loop of `GetMeasurementSummary` recognises. -/
def recognisedResultNames : List String :=
  [meanResultName, medianResultName, countResultName, minResultName, maxResultName]

/-- Arithmetic mean of a list of numbers. -/
def arithmeticMean (xs : List ℚ) : ℚ := xs.sum / xs.length

/-- Finite float64 values of all rows of a stream that carry the given label. -/
def labelledValues (label : String) : List RowState → List ℚ
  | [] => []
  | row :: rest =>
    match decide (row.Record.Result = label), row.Record.Value with
    | true, .float64 (.finite q) => q :: labelledValues label rest
    | _, _ => labelledValues label rest

/-- Value of the first row of the last table of a stream that carries the given
label: the last row with `TableChanged` true and that label. -/
def lastTableValue (label : String) : List RowState → Option Value
  | [] => none
  | row :: rest =>
    match lastTableValue label rest with
    | some v => some v
    | none =>
      if row.TableChanged = true ∧ row.Record.Result = label then some row.Record.Value
      else none

/-- A record with the given unit tag, result name and value. -/
def sampleRecord (unit label : String) (value : Value) : FluxRecord :=
  { Result := label, Value := value,
    ValueByKey := fun key =>
      if key = "unit" then .string unit
      else if key = "_value" then value
      else if key = "result" then .string label
      else .nil }

/-- A row delivered without error. -/
def sampleRow (tableChanged : Bool) (unit label : String) (value : Value) : RowState :=
  { Err := none, TableChanged := tableChanged, Record := sampleRecord unit label value }

/-- A sensor collection that holds no record. -/
def emptyCollection : Collection :=
  { InsertOne := fun _ => .error (.driver "read only"),
    FindOneByID := fun _ => .error .ErrNoDocuments,
    FindOneByName := fun _ => .error .ErrNoDocuments,
    FindOneNear := fun _ => .error .ErrNoDocuments,
    UpdateByID := fun _ _ => .ok { MatchedCount := 0, ModifiedCount := 0, UpsertedCount := 0 } }

/-- The sensor "s1" with identifier 0102...0c. -/
def sampleSensor : Sensor :=
  { ID := ⟨[1, 2, 3, 4, 5, 6, 7, 8, 9, 10, 11, 12]⟩, Name := "s1",
    Location := { Type_ := "Point", Coordinates := [.finite 1, .finite 1] },
    Tags := ["a"] }

/-- A sensor collection that holds `sampleSensor` only. -/
def singletonCollection : Collection :=
  { InsertOne := fun _ => .error (.driver "read only"),
    FindOneByID := fun objectID =>
      if objectID = sampleSensor.ID then .ok sampleSensor else .error .ErrNoDocuments,
    FindOneByName := fun name =>
      if name = sampleSensor.Name then .ok sampleSensor else .error .ErrNoDocuments,
    FindOneNear := fun _ => .ok sampleSensor,
    UpdateByID := fun _ _ => .ok { MatchedCount := 0, ModifiedCount := 0, UpsertedCount := 0 } }

/-- A sensor collection whose connection is down. -/
def unreachableCollection : Collection :=
  { InsertOne := fun _ => .error (.driver "connection refused"),
    FindOneByID := fun _ => .error (.driver "connection refused"),
    FindOneByName := fun _ => .error (.driver "connection refused"),
    FindOneNear := fun _ => .error (.driver "connection refused"),
    UpdateByID := fun _ _ => .error (.driver "connection refused") }

/-- A measurement repository whose writes succeed and whose query returns the
given result. -/
def sampleMeasurementRepository (result : Except Error QueryTableResult) :
    MeasurementRepository :=
  { bucket := "sensors", writeAPI := { WritePoint := fun _ => none },
    queryAPI := { Query := fun _ => result } }

/-- One table of the stream "mean" holding two daily windows, 10 and 20. -/
def twoDailyMeans : QueryTableResult :=
  { rows := [sampleRow true "celsius" "mean" (.float64 (.finite 10)),
      sampleRow false "celsius" "mean" (.float64 (.finite 20))],
    finalErr := none }

/-- A count table followed by a row of the same table whose label is unknown. -/
def unknownLabelInsideTable : QueryTableResult :=
  { rows := [sampleRow true "celsius" "count" (.int64 1),
      sampleRow false "celsius" "bogus" (.int64 1)],
    finalErr := none }

/-- A count table after which the iterator stops with an error. -/
def brokenAfterCount : QueryTableResult :=
  { rows := [sampleRow true "celsius" "count" (.int64 3)],
    finalErr := some (.driver "unexpected EOF") }

/-- A stream whose only table carries an unknown label. -/
def unknownLabelTable : QueryTableResult :=
  { rows := [sampleRow true "celsius" "bogus" (.int64 1)], finalErr := none }

/-- A rendering of times, standing for `Format(time.RFC3339)` in the samples. -/
def sampleFormat (t : Time) : String := toString t.sec

end repository

namespace api

/-- The measurement temperature = 15 celsius, with a sensor id and a
timestamp chosen by the client. -/
def sampleMeasurement : Measurement :=
  { Name := "temperature", SensorID := "client-chosen", Unit := "celsius",
    Value := .finite 15, Timestamp := ⟨7, 0⟩ }

/-- A measurement without name. -/
def namelessMeasurement : Measurement :=
  { Name := "", SensorID := "", Unit := "celsius", Value := .finite 1, Timestamp := Time.zero }

end api

namespace repository

/-- The field of a summary that the loop assigns from the rows of the given
result name, as a dynamic value (`nil` for another name). -/
def MeasurementSummary.fieldOf (s : MeasurementSummary) (label : String) : Value :=
  if label = meanResultName then .float64 s.MeanValue
  else if label = medianResultName then .float64 s.MedianValue
  else if label = countResultName then .int64 s.Count
  else if label = minResultName then .float64 s.MinValue
  else if label = maxResultName then .float64 s.MaxValue
  else .nil

end repository

namespace repository

/-- A sensor collection that assigns the identifier of `sampleSensor` to an
inserted record and holds `sampleSensor` under it. -/
def assigningCollection : Collection :=
  { InsertOne := fun _ => .ok sampleSensor.ID,
    FindOneByID := fun objectID =>
      if objectID = sampleSensor.ID then .ok sampleSensor else .error .ErrNoDocuments,
    FindOneByName := fun name =>
      if name = sampleSensor.Name then .ok sampleSensor else .error .ErrNoDocuments,
    FindOneNear := fun _ => .ok sampleSensor,
    UpdateByID := fun _ _ => .ok { MatchedCount := 1, ModifiedCount := 1, UpsertedCount := 0 } }

end repository

namespace api

/-- The payload of the sensor "s1" at longitude 1, latitude 1 with tag "a". -/
def sampleSensorPayload : Sensor :=
  { ID := "", Name := "s1", Location := { Longitude := .finite 1, Latitude := .finite 1 },
    Tags := ["a"] }

end api

namespace repository

/-- Unit of the first row of a stream that carries a unit, a non-empty string
under the key "unit". -/
def firstCarriedUnit : List RowState → Option String
  | [] => none
  | row :: rest =>
    match row.Record.ValueByKey "unit" with
    | .string unit => if unit = "" then firstCarriedUnit rest else some unit
    | _ => firstCarriedUnit rest

/-- Unit of the first row of a stream that starts a table (`TableChanged` true)
and carries a unit, a non-empty string under the key "unit". -/
def firstTableUnit : List RowState → Option String
  | [] => none
  | row :: rest =>
    match row.TableChanged, row.Record.ValueByKey "unit" with
    | true, .string unit => if unit = "" then firstTableUnit rest else some unit
    | _, _ => firstTableUnit rest

/-- The row carries what the loop reads from a table-starting row: a string
unit, a recognised result name and a value of the type read for that name
(int64 for "count", float64 otherwise). -/
def dispatchable (row : RowState) : Bool :=
  (match row.Record.ValueByKey "unit" with
    | .string _ => true
    | _ => false)
  && decide (row.Record.Result ∈ recognisedResultNames)
  && (if row.Record.Result = countResultName then
        match row.Record.Value with
        | .int64 _ => true
        | _ => false
      else
        match row.Record.Value with
        | .float64 _ => true
        | _ => false)

/-- The five tables of a summary of ten readings between 15 and 45 celsius, the
"min" table holding two rows. -/
def fiveTables : QueryTableResult :=
  { rows := [sampleRow true "celsius" "mean" (.float64 (.finite 30)),
      sampleRow true "celsius" "median" (.float64 (.finite 31)),
      sampleRow true "celsius" "count" (.int64 10),
      sampleRow true "celsius" "min" (.float64 (.finite 15)),
      sampleRow false "celsius" "min" (.float64 (.finite 16)),
      sampleRow true "celsius" "max" (.float64 (.finite 15))],
    finalErr := none }

end repository

namespace repository

/-- The text contains no double quote, no backslash and no newline. -/
def QuoteFree (s : String) : Prop :=
  '"' ∉ s.data ∧ '\\' ∉ s.data ∧ '\n' ∉ s.data

instance (s : String) : Decidable (QuoteFree s) :=
  inferInstanceAs (Decidable ('"' ∉ s.data ∧ '\\' ∉ s.data ∧ '\n' ∉ s.data))

/-- A unit that closes its own filter and restates the filters of the sensor
0102030405060708090a0b0c and of the unit "b". -/
def injectedUnit : String :=
  "\")\n\t\t\t|> filter(fn: (r) => r[\"sensor_id\"] == \"0102030405060708090a0b0c\")\n"
    ++ "\t\t\t|> filter(fn: (r) => r[\"unit\"] == \"b"

/-- A metric name that closes its own filter and restates the filters of the
sensor 0102030405060708090a0b0c and of the unit. -/
def injectedMeasurement : String :=
  "a\")\n\t\t\t|> filter(fn: (r) => r[\"sensor_id\"] == \"0102030405060708090a0b0c\")\n"
    ++ "\t\t\t|> filter(fn: (r) => r[\"unit\"] == \""

end repository

namespace repository

/-- A rendering of times as a tally of their seconds, standing for
`Format(time.RFC3339)` in the sample of a store that reads the range; like
RFC 3339 it drops the nanoseconds. -/
def tallyFormat (t : Time) : String := String.mk (List.replicate t.sec.toNat '1')

/-- Number of tally marks at the head of a text. -/
def tallyCount (chars : List Char) : Nat := (chars.takeWhile fun c => c = '1').length

/-- A time-series store for the bucket "sensors" that reads the range of the
query (rendered by `tallyFormat`) and, like the store of the tests, rejects an
empty range with "cannot query an empty range". -/
def rangeCheckingQueryAPI (result : QueryTableResult) : QueryAPI :=
  { Query := fun query =>
      let afterStart := query.data.drop 52
      let start := tallyCount afterStart
      let stop := tallyCount ((afterStart.drop start).drop 8)
      if start < stop then .ok result
      else .error (.driver "error in building plan while starting program: cannot query an empty range") }

end repository

namespace repository

/-- The store behind the repository rejects the summary query of an empty
range: whenever the start is not before the stop, `Query` returns an error. -/
def RejectsEmptyRange (m : MeasurementRepository) (formatRFC3339 : Time → String) : Prop :=
  ∀ (sensorID measurement unit : String) (start stop : Time), start.Before stop = false →
    ∃ err, m.queryAPI.Query
        (summaryQuery m.bucket (formatRFC3339 start) (formatRFC3339 stop)
          measurement sensorID unit) = .error err

/-- A measurement repository on the bucket "sensors" whose store reads the
range of the query. -/
def rangeCheckingRepository (result : QueryTableResult) : MeasurementRepository :=
  { bucket := "sensors", writeAPI := { WritePoint := fun _ => none },
    queryAPI := rangeCheckingQueryAPI result }

end repository

namespace repository

/-- The five passes of the query: the reduction applied to the base set, and the
name under which its result is yielded. -/
def summaryPasses : List (String × String) :=
  [("aggregateWindow(every: 1d, fn: mean, createEmpty: false)", "mean"),
    ("aggregateWindow(every: 1d, fn: median, createEmpty: false)", "median"),
    ("count()", "count"),
    ("min()", "min"),
    ("min()", "max")]

/-- Text of one pass: the base set piped through the reduction and yielded
under the name. -/
def renderPass (pass : String × String) : String :=
  "\t\tresult\n\t\t\t|> " ++ pass.1 ++ "\n\t\t\t|> yield(name: \"" ++ pass.2 ++ "\")"

/-- Text that defines the base set `result`: bucket, range and the three
filters, up to the line that precedes the passes. -/
def baseSet (bucket start stop measurement sensorID unit : String) : String :=
  "result = from(bucket: \"" ++ bucket ++ "\")\n"
    ++ "\t\t\t|> range(start: " ++ start ++ ", stop: " ++ stop ++ ")\n"
    ++ "\t\t\t|> filter(fn: (r) => r[\"_measurement\"] == \"" ++ measurement ++ "\")\n"
    ++ "\t\t\t|> filter(fn: (r) => r[\"sensor_id\"] == \"" ++ sensorID ++ "\")\n"
    ++ "\t\t\t|> filter(fn: (r) => r[\"unit\"] == \"" ++ unit ++ "\")\n"
    ++ "\t\t\t\n"

/-- The text `yield(name: ` that precedes the name of a yielded result. -/
def yieldMarker : List Char := "yield(name: ".data

/-- State of the reader of a query text: whether it is inside a string literal,
whether the previous character of the literal was a backslash, how many
characters of `yieldMarker` were just read outside literals, whether the
literal being read names a yield, that name so far, and the names read. -/
structure Lexer where
  inString : Bool
  escaped : Bool
  matched : Nat
  naming : Bool
  name : List Char
  names : List String
  deriving DecidableEq

/-- The reader before the first character. -/
def Lexer.init : Lexer :=
  { inString := false, escaped := false, matched := 0, naming := false, name := [], names := [] }

/-- The reader inside a string literal that names no yield. -/
def Lexer.inLiteral (names : List String) : Lexer :=
  { inString := true, escaped := false, matched := 0, naming := false, name := [],
    names := names }

/-- One character read: string literals run from a double quote to the next
one not preceded by a backslash; a literal that directly follows `yield(name: `
is the name of a yielded result. -/
def Lexer.step (s : Lexer) (c : Char) : Lexer :=
  if s.inString then
    if s.escaped then
      { s with escaped := false, name := if s.naming then s.name ++ [c] else s.name }
    else if c = '\\' then
      { s with escaped := true, name := if s.naming then s.name ++ [c] else s.name }
    else if c = '"' then
      { inString := false, escaped := false, matched := 0, naming := false, name := [],
        names := if s.naming then s.names ++ [String.mk s.name] else s.names }
    else
      { s with name := if s.naming then s.name ++ [c] else s.name }
  else if c = '"' then
    { s with inString := true, naming := decide (s.matched = yieldMarker.length),
             matched := 0, name := [] }
  else if yieldMarker.get? s.matched = some c then
    { s with matched := s.matched + 1 }
  else if c = 'y' then
    { s with matched := 1 }
  else
    { s with matched := 0 }

/-- Names of the results that a query text yields, in the order of the text. -/
def yieldNames (query : String) : List String :=
  (query.data.foldl Lexer.step Lexer.init).names

/-- The text is made of the characters of an RFC 3339 time: digits and
`-`, `:`, `T`, `Z`, `+`, `.`. -/
def RangeText (s : String) : Prop :=
  ∀ c ∈ s.data, c.isDigit = true ∨ c ∈ ['-', ':', 'T', 'Z', '+', '.']

instance (s : String) : Decidable (RangeText s) :=
  inferInstanceAs (Decidable (∀ c ∈ s.data, c.isDigit = true ∨ c ∈ ['-', ':', 'T', 'Z', '+', '.']))

/-- A unit that closes its own filter and yields the base set under the name
"sixth". -/
def yieldingUnit : String := "celsius\") |> yield(name: \"sixth"

/-- The row under another result name. -/
def relabel (name : String) (row : RowState) : RowState :=
  { row with Record := { row.Record with Result := name } }

/-- The stream of a store that honours the passes of a query: for each pass, in
order, the rows that the store computes for the reduction of the pass over the
base set, under the name of the pass. -/
def honouredRows (tables : String → List RowState) : List (String × String) → List RowState
  | [] => []
  | pass :: rest => (tables pass.1).map (relabel pass.2) ++ honouredRows tables rest

/-- A store's answers by reduction: one row with the value 15 for `min()`, 30
for the windowed mean and median, and the count 10. -/
def sampleTables (reduction : String) : List RowState :=
  if reduction = "min()" then [sampleRow true "celsius" "" (.float64 (.finite 15))]
  else if reduction = "count()" then [sampleRow true "celsius" "" (.int64 10)]
  else [sampleRow true "celsius" "" (.float64 (.finite 30))]

end repository

/-! ## Validation of the payloads -/

theorem utf8ByteSize_go_pos (c : Char) (cs : List Char) :
    0 < String.utf8ByteSize.go (c :: cs) := by
  have := Char.utf8Size_pos c
  simp only [String.utf8ByteSize.go]
  omega

theorem validator.IsEmptyString_iff (s : String) : validator.IsEmptyString s = true ↔ s = "" := by
  cases s with
  | mk data =>
    cases data with
    | nil => simp [validator.IsEmptyString, String.utf8ByteSize, String.utf8ByteSize.go]
    | cons c cs =>
      have h := utf8ByteSize_go_pos c cs
      have hne : (String.mk (c :: cs)) ≠ "" := by
        intro h'
        have := congrArg String.data h'
        simp at this
      simp only [validator.IsEmptyString, String.utf8ByteSize, beq_iff_eq]
      constructor
      · intro h0; omega
      · intro h0; exact absurd h0 hne

theorem validator.firstError_RequiredString (s : String) :
    validator.firstError [validator.RequiredString] s = none ↔ s ≠ "" := by
  have h := validator.IsEmptyString_iff s
  by_cases hs : s = ""
  · subst hs
    simp [validator.firstError, validator.RequiredString,
      show validator.IsEmptyString "" = true from h.mpr rfl]
  · have : validator.IsEmptyString s = false := by
      cases hb : validator.IsEmptyString s with
      | true => exact absurd (h.mp hb) hs
      | false => rfl
    simp [validator.firstError, validator.RequiredString, this, hs]

theorem validator.firstError_RequiredSlice_Length (tags : List String) :
    validator.firstError [validator.RequiredSlice, validator.Length 1 0] tags = none
      ↔ tags ≠ [] := by
  cases tags with
  | nil => simp [validator.firstError, validator.RequiredSlice, validator.IsEmptySlice]
  | cons t ts =>
    simp [validator.firstError, validator.RequiredSlice, validator.Length,
      validator.IsEmptySlice]

theorem validator.firstError_RequiredFloat (f : Float64) :
    validator.firstError [validator.RequiredFloat] f = none ↔ f ≠ .finite 0 := by
  cases f with
  | finite q =>
    by_cases hq : q = 0
    · simp [validator.firstError, validator.RequiredFloat, validator.IsEmptyFloat,
        Float64.isZero, hq]
    · simp [validator.firstError, validator.RequiredFloat, validator.IsEmptyFloat,
        Float64.isZero, hq]
  | posInf => simp [validator.firstError, validator.RequiredFloat, validator.IsEmptyFloat,
      Float64.isZero]
  | negInf => simp [validator.firstError, validator.RequiredFloat, validator.IsEmptyFloat,
      Float64.isZero]
  | nan => simp [validator.firstError, validator.RequiredFloat, validator.IsEmptyFloat,
      Float64.isZero]

theorem validator.firstError_bounds (lo hi : ℚ) (f : Float64) :
    validator.firstError
        [validator.RequiredFloat, validator.Min (.finite lo), validator.Max (.finite hi)] f = none
      ↔ Float64.InClosedInterval lo hi f ∧ f ≠ .finite 0 := by
  cases f with
  | finite q =>
    by_cases hq : q = 0
    · simp [validator.firstError, validator.RequiredFloat, validator.IsEmptyFloat,
        Float64.isZero, hq]
    · by_cases hlo : lo ≤ q
      · by_cases hhi : q ≤ hi
        · simp [validator.firstError, validator.RequiredFloat, validator.Min, validator.Max,
            validator.IsEmptyFloat, Float64.isZero, Float64.ge, Float64.le,
            Float64.InClosedInterval, hq, hlo, hhi]
        · simp [validator.firstError, validator.RequiredFloat, validator.Min, validator.Max,
            validator.IsEmptyFloat, Float64.isZero, Float64.ge, Float64.le,
            Float64.InClosedInterval, hq, hlo, hhi]
      · simp [validator.firstError, validator.RequiredFloat, validator.Min, validator.Max,
          validator.IsEmptyFloat, Float64.isZero, Float64.ge, Float64.le,
          Float64.InClosedInterval, hq, hlo]
  | posInf =>
    simp [validator.firstError, validator.RequiredFloat, validator.Min, validator.Max,
      validator.IsEmptyFloat, Float64.isZero, Float64.ge, Float64.le, Float64.InClosedInterval]
  | negInf =>
    simp [validator.firstError, validator.RequiredFloat, validator.Min, validator.Max,
      validator.IsEmptyFloat, Float64.isZero, Float64.ge, Float64.le, Float64.InClosedInterval]
  | nan =>
    simp [validator.firstError, validator.RequiredFloat, validator.Min, validator.Max,
      validator.IsEmptyFloat, Float64.isZero, Float64.ge, Float64.le, Float64.InClosedInterval]

theorem validator.fieldEntry_eq_nil {ε : Type} (name : String) (err : Option ε) :
    validator.fieldEntry name err = [] ↔ err = none := by
  cases err <;> simp [validator.fieldEntry]

theorem validator.result_eq_none {ε : Type} (errs : List (String × ε)) :
    validator.result errs = none ↔ errs = [] := by
  cases errs <;> simp [validator.result]

theorem api.Location_validate_iff (l : api.Location) :
    l.ValidateWithContext = none ↔
      (Float64.InClosedInterval (-180) 180 l.Longitude ∧ l.Longitude ≠ .finite 0) ∧
      (Float64.InClosedInterval (-90) 90 l.Latitude ∧ l.Latitude ≠ .finite 0) := by
  unfold api.Location.ValidateWithContext
  rw [validator.result_eq_none, List.append_eq_nil, validator.fieldEntry_eq_nil,
    validator.fieldEntry_eq_nil, validator.firstError_bounds, validator.firstError_bounds]

theorem api.validateLocationField_eq_none (l : api.Location) :
    api.validateLocationField l = none ↔ l.ValidateWithContext = none := by
  unfold api.validateLocationField
  cases h : l.ValidateWithContext <;> simp [validator.firstError, validator.RequiredStruct]

/-- C1: a sensor with empty name, no tags and location (0, 0) fails validation,
and the flagged fields are exactly name, tags, location.latitude and
location.longitude, each with the message "cannot be blank". -/
theorem api.Sensor_validate_empty_flags (id : String) :
    ∃ errs : validator.Errors,
      api.Sensor.ValidateWithContext
          { ID := id, Name := "", Location := { Longitude := .finite 0, Latitude := .finite 0 },
            Tags := [] } = some errs ∧
        ∀ path msg : String, (path, msg) ∈ validator.flagged errs ↔
          (path ∈ ["name", "tags", "location.latitude", "location.longitude"]
            ∧ msg = "cannot be blank") := by
  refine ⟨[("name", .rule .ErrRequired),
      ("location", .nested [("longitude", .ErrRequired), ("latitude", .ErrRequired)]),
      ("tags", .rule .ErrRequired)], by rfl, ?_⟩
  intro path msg
  have hflag : validator.flagged [("name", .rule .ErrRequired),
      ("location", .nested [("longitude", .ErrRequired), ("latitude", .ErrRequired)]),
      ("tags", .rule .ErrRequired)]
      = [("name", "cannot be blank"), ("location.longitude", "cannot be blank"),
        ("location.latitude", "cannot be blank"), ("tags", "cannot be blank")] := by
    decide
  rw [hflag]
  simp only [List.mem_cons, Prod.mk.injEq, List.mem_singleton, List.not_mem_nil, or_false]
  tauto

/-- C2, as stated, fails: the sensor named "s1" with tag "a" at longitude 0,
latitude 45 has a non-empty name, one tag and in-bounds coordinates, and is
rejected with `location.longitude` flagged. -/
theorem api.Sensor_validate_rejects_zero_longitude :
    ("s1" ≠ "" ∧ ["a"] ≠ ([] : List String)
        ∧ Float64.InClosedInterval (-180) 180 (.finite 0)
        ∧ Float64.InClosedInterval (-90) 90 (.finite 45))
      ∧ (api.Sensor.ValidateWithContext
          { ID := "", Name := "s1",
            Location := { Longitude := .finite 0, Latitude := .finite 45 },
            Tags := ["a"] }).map validator.flagged
        = some [("location.longitude", "cannot be blank")] := by
  refine ⟨⟨by decide, by decide, ⟨0, rfl, by norm_num, by norm_num⟩,
    ⟨45, rfl, by norm_num, by norm_num⟩⟩, by decide⟩

/-- C2, amended: validation of a sensor succeeds exactly when the name is
non-empty, there is at least one tag, the longitude lies in [-180, 180] and is
not 0, and the latitude lies in [-90, 90] and is not 0. -/
theorem api.Sensor_validate_iff (s : api.Sensor) :
    s.ValidateWithContext = none ↔
      s.Name ≠ "" ∧ s.Tags ≠ []
        ∧ (Float64.InClosedInterval (-180) 180 s.Location.Longitude
            ∧ s.Location.Longitude ≠ .finite 0)
        ∧ (Float64.InClosedInterval (-90) 90 s.Location.Latitude
            ∧ s.Location.Latitude ≠ .finite 0) := by
  unfold api.Sensor.ValidateWithContext
  rw [validator.result_eq_none, List.append_eq_nil, List.append_eq_nil,
    validator.fieldEntry_eq_nil, validator.fieldEntry_eq_nil, validator.fieldEntry_eq_nil,
    Option.map_eq_none', Option.map_eq_none', validator.firstError_RequiredString,
    validator.firstError_RequiredSlice_Length, api.validateLocationField_eq_none,
    api.Location_validate_iff]
  tauto

/-- C3: validation of a measurement succeeds exactly when name and unit are
non-empty and the value is not 0; a measurement whose value is 0 is rejected
with the field `value` flagged "cannot be blank", whatever its other fields. -/
theorem api.Measurement_validate_iff :
    (∀ m : api.Measurement,
        m.ValidateWithContext = none ↔ m.Name ≠ "" ∧ m.Unit ≠ "" ∧ m.Value ≠ .finite 0)
      ∧ ∀ (name sensorID unit : String) (timestamp : Time),
          ∃ errs : validator.Errors,
            api.Measurement.ValidateWithContext
                { Name := name, SensorID := sensorID, Unit := unit, Value := .finite 0,
                  Timestamp := timestamp } = some errs
              ∧ ("value", "cannot be blank") ∈ validator.flagged errs := by
  constructor
  · intro m
    unfold api.Measurement.ValidateWithContext
    rw [validator.result_eq_none, List.append_eq_nil, List.append_eq_nil,
      validator.fieldEntry_eq_nil, validator.fieldEntry_eq_nil, validator.fieldEntry_eq_nil,
      Option.map_eq_none', Option.map_eq_none', Option.map_eq_none',
      validator.firstError_RequiredString, validator.firstError_RequiredString,
      validator.firstError_RequiredFloat]
    tauto
  · intro name sensorID unit timestamp
    have hvalue : validator.fieldEntry "value"
        ((validator.firstError [validator.RequiredFloat] (Float64.finite 0)).map
          validator.FieldError.rule) = [("value", .rule .ErrRequired)] := by
      decide
    have hmem : ∀ errs : validator.Errors,
        ("value", validator.FieldError.rule .ErrRequired) ∈ errs →
          ("value", "cannot be blank") ∈ validator.flagged errs := by
      intro errs h
      unfold validator.flagged
      rw [List.mem_flatMap]
      exact ⟨_, h, by simp [validator.RuleError.Message]⟩
    unfold api.Measurement.ValidateWithContext
    rw [hvalue]
    generalize validator.fieldEntry "name" _ ++ validator.fieldEntry "unit" _ = front
    refine ⟨front ++ [("value", .rule .ErrRequired)], ?_, hmem _ (by simp)⟩
    simp [validator.result]

/-! ## PostMeasurement and the sensor lookups -/

theorem repository.GetSensorByID_never_nil_nil (s : repository.SensorsRepository) (id : String)
    (herr : (s.GetSensorByID id).err = none) : (s.GetSensorByID id).sensor ≠ none := by
  unfold repository.SensorsRepository.GetSensorByID at herr ⊢
  cases hid : primitive.ObjectIDFromHex id with
  | error err => simp [hid] at herr
  | ok objectID =>
    cases hf : s.sensorsColl.FindOneByID objectID with
    | error err => simp [hid, hf] at herr
    | ok sensor => simp [hf]

/-- C4 (the handler departs from it): for a valid measurement and a path id for
which the sensor store holds no record (the id is ill-formed, or the find
reports no document), `PostMeasurement` answers 500, not 404; and for no
store, id and body at all does it answer 404. -/
theorem api.PostMeasurement_absent_sensor_status
    (sensorsRepository : repository.SensorsRepository)
    (measurementRepository : repository.MeasurementRepository) (now : Time) (id : String)
    (m : api.Measurement) (hvalid : m.ValidateWithContext = none)
    (habsent : ∀ objectID, primitive.ObjectIDFromHex id = .ok objectID →
      sensorsRepository.sensorsColl.FindOneByID objectID = .error .ErrNoDocuments) :
    (api.PostMeasurement sensorsRepository measurementRepository now id (some m)).1.status
        = api.StatusInternalServerError
      ∧ ∀ (otherSensors : repository.SensorsRepository)
          (otherMeasurements : repository.MeasurementRepository) (otherNow : Time)
          (otherID : String) (body : Option api.Measurement),
          (api.PostMeasurement otherSensors otherMeasurements otherNow otherID body).1.status
            ≠ api.StatusNotFound := by
  constructor
  · unfold api.PostMeasurement
    simp only [hvalid]
    unfold repository.SensorsRepository.GetSensorByID
    cases hid : primitive.ObjectIDFromHex id with
    | error err => rfl
    | ok objectID =>
      simp only [habsent objectID hid]
  · intro otherSensors otherMeasurements otherNow otherID body
    unfold api.PostMeasurement
    cases body with
    | none => simp [api.StatusBadRequest, api.StatusNotFound]
    | some measurement =>
      cases hv : measurement.ValidateWithContext with
      | some errs => simp [hv, api.StatusBadRequest, api.StatusNotFound]
      | none =>
        cases he : (otherSensors.GetSensorByID otherID).err with
        | some err => simp [hv, he, api.StatusInternalServerError, api.StatusNotFound]
        | none =>
          cases hs : (otherSensors.GetSensorByID otherID).sensor with
          | none => exact absurd hs (repository.GetSensorByID_never_nil_nil _ _ he)
          | some sensor =>
            simp only [hv, he, hs]
            split <;> simp [api.StatusInternalServerError, api.StatusCreated,
              api.StatusNotFound]

/-- Witness of C4's theorem: the id 000000000000000000000000 against a store
without records. -/
theorem api.PostMeasurement_absent_sensor_status_witness :
    (api.PostMeasurement ⟨repository.emptyCollection⟩
        (repository.sampleMeasurementRepository (.ok ⟨[], none⟩)) ⟨1, 0⟩
        "000000000000000000000000" (some api.sampleMeasurement)).1.status
      = api.StatusInternalServerError :=
  (api.PostMeasurement_absent_sensor_status ⟨repository.emptyCollection⟩
    (repository.sampleMeasurementRepository (.ok ⟨[], none⟩)) ⟨1, 0⟩
    "000000000000000000000000" api.sampleMeasurement (by decide) (fun _ _ => rfl)).1

theorem repository.GetSensorByID_calls_no_write (s : repository.SensorsRepository) (id : String) :
    ∀ c ∈ (s.GetSensorByID id).calls, c.isWritePoint = false := by
  unfold repository.SensorsRepository.GetSensorByID
  cases primitive.ObjectIDFromHex id with
  | error err => simp
  | ok objectID =>
    cases hf : s.sensorsColl.FindOneByID objectID <;>
      simp [hf, repository.StoreCall.isWritePoint]

/-- C5: in `PostMeasurement` a point is written only if the body parsed, the
measurement validated and the sensor lookup returned a sensor without error;
when validation fails no store call at all is made, and when the lookup fails
or finds nothing no point is written. -/
theorem api.PostMeasurement_write_guarded
    (sensorsRepository : repository.SensorsRepository)
    (measurementRepository : repository.MeasurementRepository) (now : Time) (id : String)
    (body : Option api.Measurement) :
    ((∃ c ∈ (api.PostMeasurement sensorsRepository measurementRepository now id body).2,
          c.isWritePoint = true) →
        ∃ m sensor, body = some m ∧ m.ValidateWithContext = none
          ∧ (sensorsRepository.GetSensorByID id).sensor = some sensor
          ∧ (sensorsRepository.GetSensorByID id).err = none)
      ∧ (∀ m, body = some m → m.ValidateWithContext ≠ none →
          (api.PostMeasurement sensorsRepository measurementRepository now id body).2 = [])
      ∧ ((sensorsRepository.GetSensorByID id).err ≠ none
            ∨ (sensorsRepository.GetSensorByID id).sensor = none →
          ∀ c ∈ (api.PostMeasurement sensorsRepository measurementRepository now id body).2,
            c.isWritePoint = false) := by
  have hfind := repository.GetSensorByID_calls_no_write sensorsRepository id
  cases body with
  | none => simp [api.PostMeasurement]
  | some m =>
    cases hv : m.ValidateWithContext with
    | some errs => simp [api.PostMeasurement, hv]
    | none =>
      cases he : (sensorsRepository.GetSensorByID id).err with
      | some err =>
        refine ⟨?_, ?_, ?_⟩
        · rintro ⟨c, hc, hw⟩
          simp only [api.PostMeasurement, hv, he] at hc
          rw [hfind c hc] at hw
          exact absurd hw (by decide)
        · intro m' hm' hne
          cases hm'
          exact absurd hv hne
        · intro _ c hc
          simp only [api.PostMeasurement, hv, he] at hc
          exact hfind c hc
      | none =>
        cases hs : (sensorsRepository.GetSensorByID id).sensor with
        | none =>
          refine ⟨?_, ?_, ?_⟩
          · rintro ⟨c, hc, hw⟩
            simp only [api.PostMeasurement, hv, he, hs] at hc
            rw [hfind c hc] at hw
            exact absurd hw (by decide)
          · intro m' hm' hne
            cases hm'
            exact absurd hv hne
          · intro _ c hc
            simp only [api.PostMeasurement, hv, he, hs] at hc
            exact hfind c hc
        | some sensor =>
          refine ⟨fun _ => ⟨m, sensor, rfl, hv, rfl, rfl⟩, ?_, ?_⟩
          · intro m' hm' hne
            cases hm'
            exact absurd hv hne
          · intro h
            rcases h with h | h
            · exact absurd rfl h
            · cases h

/-- Witness of C5's theorem: a valid measurement for the stored sensor (a point
is written), a measurement without name (no store call), and a valid
measurement against an empty store (no point written). -/
theorem api.PostMeasurement_write_guarded_witness :
    (∃ m sensor, some api.sampleMeasurement = some m ∧ m.ValidateWithContext = none
        ∧ (repository.SensorsRepository.GetSensorByID ⟨repository.singletonCollection⟩
            "0102030405060708090a0b0c").sensor = some sensor
        ∧ (repository.SensorsRepository.GetSensorByID ⟨repository.singletonCollection⟩
            "0102030405060708090a0b0c").err = none)
      ∧ (api.PostMeasurement ⟨repository.singletonCollection⟩
          (repository.sampleMeasurementRepository (.ok ⟨[], none⟩)) ⟨1, 0⟩
          "0102030405060708090a0b0c" (some api.namelessMeasurement)).2 = []
      ∧ ∀ c ∈ (api.PostMeasurement ⟨repository.emptyCollection⟩
          (repository.sampleMeasurementRepository (.ok ⟨[], none⟩)) ⟨1, 0⟩
          "0102030405060708090a0b0c" (some api.sampleMeasurement)).2,
          c.isWritePoint = false :=
  ⟨(api.PostMeasurement_write_guarded ⟨repository.singletonCollection⟩
      (repository.sampleMeasurementRepository (.ok ⟨[], none⟩)) ⟨1, 0⟩
      "0102030405060708090a0b0c" (some api.sampleMeasurement)).1
      ⟨.WritePoint (repository.measurementPoint
          { Name := "temperature", SensorID := "0102030405060708090a0b0c", Unit := "celsius",
            Value := .finite 15, Timestamp := ⟨7, 0⟩ } ⟨1, 0⟩), by decide, rfl⟩,
    (api.PostMeasurement_write_guarded ⟨repository.singletonCollection⟩
      (repository.sampleMeasurementRepository (.ok ⟨[], none⟩)) ⟨1, 0⟩
      "0102030405060708090a0b0c" (some api.namelessMeasurement)).2.1
      api.namelessMeasurement rfl (by decide),
    (api.PostMeasurement_write_guarded ⟨repository.emptyCollection⟩
      (repository.sampleMeasurementRepository (.ok ⟨[], none⟩)) ⟨1, 0⟩
      "0102030405060708090a0b0c" (some api.sampleMeasurement)).2.2
      (Or.inl (by decide))⟩

/-- C6: `GetNearestSensor` returns nil sensor and nil error when the find
reports `ErrNoDocuments`, the found sensor and nil error when the find
succeeds, and a non-nil error only when the find failed with another error,
which it returns. -/
theorem repository.GetNearestSensor_results (s : repository.SensorsRepository)
    (latitude longitude maxDistance : Float64) :
    (s.sensorsColl.FindOneNear (repository.nearFilter latitude longitude maxDistance)
          = .error .ErrNoDocuments →
        (s.GetNearestSensor latitude longitude maxDistance).sensor = none
          ∧ (s.GetNearestSensor latitude longitude maxDistance).err = none)
      ∧ (∀ sensor,
          s.sensorsColl.FindOneNear (repository.nearFilter latitude longitude maxDistance)
              = .ok sensor →
            (s.GetNearestSensor latitude longitude maxDistance).sensor = some sensor
              ∧ (s.GetNearestSensor latitude longitude maxDistance).err = none)
      ∧ (∀ err, (s.GetNearestSensor latitude longitude maxDistance).err = some err →
          err ≠ .ErrNoDocuments
            ∧ s.sensorsColl.FindOneNear (repository.nearFilter latitude longitude maxDistance)
              = .error err
            ∧ (s.GetNearestSensor latitude longitude maxDistance).sensor = none) := by
  cases hf : s.sensorsColl.FindOneNear (repository.nearFilter latitude longitude maxDistance) with
  | ok sensor => simp [repository.SensorsRepository.GetNearestSensor, hf]
  | error e =>
    by_cases he : e = Error.ErrNoDocuments
    · subst he
      simp [repository.SensorsRepository.GetNearestSensor, hf]
    · simp only [repository.SensorsRepository.GetNearestSensor, hf, he, if_false]
      refine ⟨?_, ?_, ?_⟩
      · intro h
        cases h
        exact absurd rfl he
      · intro sensor h
        cases h
      · intro err h
        cases h
        refine ⟨he, ?_, ?_⟩ <;> first | rfl | trivial

/-- Witness of C6's theorem: an empty store, a store holding one sensor, and a
store whose connection is down. -/
theorem repository.GetNearestSensor_results_witness :
    ((repository.SensorsRepository.GetNearestSensor ⟨repository.emptyCollection⟩
          (.finite 1) (.finite 2) (.finite 100)).sensor = none
        ∧ (repository.SensorsRepository.GetNearestSensor ⟨repository.emptyCollection⟩
          (.finite 1) (.finite 2) (.finite 100)).err = none)
      ∧ ((repository.SensorsRepository.GetNearestSensor ⟨repository.singletonCollection⟩
          (.finite 1) (.finite 2) (.finite 100)).sensor = some repository.sampleSensor
        ∧ (repository.SensorsRepository.GetNearestSensor ⟨repository.singletonCollection⟩
          (.finite 1) (.finite 2) (.finite 100)).err = none)
      ∧ (Error.driver "connection refused" ≠ .ErrNoDocuments
        ∧ repository.unreachableCollection.FindOneNear
            (repository.nearFilter (.finite 1) (.finite 2) (.finite 100))
          = .error (.driver "connection refused")
        ∧ (repository.SensorsRepository.GetNearestSensor ⟨repository.unreachableCollection⟩
          (.finite 1) (.finite 2) (.finite 100)).sensor = none) :=
  ⟨(repository.GetNearestSensor_results ⟨repository.emptyCollection⟩
      (.finite 1) (.finite 2) (.finite 100)).1 rfl,
    (repository.GetNearestSensor_results ⟨repository.singletonCollection⟩
      (.finite 1) (.finite 2) (.finite 100)).2.1 repository.sampleSensor rfl,
    (repository.GetNearestSensor_results ⟨repository.unreachableCollection⟩
      (.finite 1) (.finite 2) (.finite 100)).2.2 (.driver "connection refused") rfl⟩

/-! ## The row loop of GetMeasurementSummary -/

theorem repository.captureUnit_fieldOf (acc w : repository.MeasurementSummary)
    (record : FluxRecord) (h : repository.captureUnit acc record = .ok w) (label : String) :
    w.fieldOf label = acc.fieldOf label := by
  unfold repository.captureUnit at h
  split at h
  · split at h
    · cases h
      rfl
    · cases h
  · cases h
    rfl

theorem repository.dispatchResult_fieldOf (w next : repository.MeasurementSummary)
    (record : FluxRecord) (h : repository.dispatchResult w record = .ok next) (label : String)
    (hlabel : label ∈ repository.recognisedResultNames) :
    next.fieldOf label = if record.Result = label then record.Value else w.fieldOf label := by
  simp only [repository.recognisedResultNames, repository.meanResultName,
    repository.medianResultName, repository.countResultName, repository.minResultName,
    repository.maxResultName, List.mem_cons, List.mem_singleton, List.not_mem_nil,
    or_false] at hlabel
  unfold repository.dispatchResult at h
  simp only [repository.meanResultName, repository.medianResultName,
    repository.countResultName, repository.minResultName, repository.maxResultName] at h
  by_cases h1 : record.Result = "mean"
  · rw [if_pos h1] at h
    split at h
    · cases h
      rcases hlabel with rfl | rfl | rfl | rfl | rfl <;>
        simp_all [repository.MeasurementSummary.fieldOf, repository.meanResultName,
          repository.medianResultName, repository.countResultName,
          repository.minResultName, repository.maxResultName]
    · cases h
  · rw [if_neg h1] at h
    by_cases h2 : record.Result = "median"
    · rw [if_pos h2] at h
      split at h
      · cases h
        rcases hlabel with rfl | rfl | rfl | rfl | rfl <;>
          simp_all [repository.MeasurementSummary.fieldOf, repository.meanResultName,
            repository.medianResultName, repository.countResultName,
            repository.minResultName, repository.maxResultName]
      · cases h
    · rw [if_neg h2] at h
      by_cases h3 : record.Result = "count"
      · rw [if_pos h3] at h
        split at h
        · cases h
          rcases hlabel with rfl | rfl | rfl | rfl | rfl <;>
            simp_all [repository.MeasurementSummary.fieldOf, repository.meanResultName,
              repository.medianResultName, repository.countResultName,
              repository.minResultName, repository.maxResultName]
        · cases h
      · rw [if_neg h3] at h
        by_cases h4 : record.Result = "min"
        · rw [if_pos h4] at h
          split at h
          · cases h
            rcases hlabel with rfl | rfl | rfl | rfl | rfl <;>
              simp_all [repository.MeasurementSummary.fieldOf, repository.meanResultName,
                repository.medianResultName, repository.countResultName,
                repository.minResultName, repository.maxResultName]
          · cases h
        · rw [if_neg h4] at h
          by_cases h5 : record.Result = "max"
          · rw [if_pos h5] at h
            split at h
            · cases h
              rcases hlabel with rfl | rfl | rfl | rfl | rfl <;>
                simp_all [repository.MeasurementSummary.fieldOf, repository.meanResultName,
                  repository.medianResultName, repository.countResultName,
                  repository.minResultName, repository.maxResultName]
            · cases h
          · rw [if_neg h5] at h
            cases h

theorem repository.summaryRow_fieldOf (acc next : repository.MeasurementSummary)
    (row : RowState) (h : repository.summaryRow acc row = .ok next) (label : String)
    (hlabel : label ∈ repository.recognisedResultNames) :
    next.fieldOf label
      = if row.TableChanged = true ∧ row.Record.Result = label then row.Record.Value
        else acc.fieldOf label := by
  unfold repository.summaryRow at h
  cases herr : row.Err with
  | some err =>
    rw [herr] at h
    cases h
  | none =>
    rw [herr] at h
    cases htc : row.TableChanged with
    | false =>
      simp only [htc, Bool.not_false, if_true] at h
      cases h
      simp
    | true =>
      simp only [htc, Bool.not_true] at h
      cases hcu : repository.captureUnit acc row.Record with
      | error err =>
        rw [hcu] at h
        cases h
      | ok w =>
        rw [hcu] at h
        simp only [Bool.false_eq_true, if_false] at h
        rw [repository.dispatchResult_fieldOf w next row.Record h label hlabel,
          repository.captureUnit_fieldOf acc w row.Record hcu label]
        simp

theorem repository.summaryLoop_fieldOf (rows : List RowState) :
    ∀ (acc summary : repository.MeasurementSummary),
      repository.summaryLoop acc rows = .ok summary →
      ∀ label ∈ repository.recognisedResultNames,
        summary.fieldOf label
          = (repository.lastTableValue label rows).getD (acc.fieldOf label) := by
  induction rows with
  | nil =>
    intro acc summary h label _
    simp only [repository.summaryLoop] at h
    cases h
    rfl
  | cons row rest ih =>
    intro acc summary h label hlabel
    simp only [repository.summaryLoop] at h
    cases hrow : repository.summaryRow acc row with
    | error err =>
      rw [hrow] at h
      cases h
    | ok next =>
      rw [hrow] at h
      rw [ih next summary h label hlabel,
        repository.summaryRow_fieldOf acc next row hrow label hlabel]
      simp only [repository.lastTableValue]
      cases repository.lastTableValue label rest with
      | some v => rfl
      | none =>
        by_cases hc : row.TableChanged = true ∧ row.Record.Result = label
        · simp [hc]
        · simp [hc]

/-- C7, as stated, fails: for the stream of one "mean" table holding the daily
means 10 and 20, the summary's mean is 10, while the arithmetic mean of the
rows labelled "mean" is 15. -/
theorem repository.GetMeasurementSummary_mean_is_first_window :
    (repository.MeasurementRepository.GetMeasurementSummary
          (repository.sampleMeasurementRepository (.ok repository.twoDailyMeans))
          repository.sampleFormat "0102030405060708090a0b0c" "temperature" "celsius"
          ⟨0, 0⟩ ⟨172800, 0⟩
        = .ok { MinValue := .finite 0, MaxValue := .finite 0, MedianValue := .finite 0,
                MeanValue := .finite 10, Unit := "celsius", Count := 0 })
      ∧ repository.arithmeticMean
          (repository.labelledValues "mean" repository.twoDailyMeans.rows) = 15
      ∧ Float64.finite 10 ≠ Float64.finite 15 := by
  refine ⟨rfl, ?_, by decide⟩
  have hvals : repository.labelledValues "mean" repository.twoDailyMeans.rows = [10, 20] := by
    decide
  rw [hvals]
  norm_num [repository.arithmeticMean]

/-- C7, amended: when `GetMeasurementSummary` returns a summary, its MeanValue
is the value of the first row of the last table labelled "mean" (zero when no
table carries that label), and its MedianValue likewise for "median". -/
theorem repository.GetMeasurementSummary_mean_median (m : repository.MeasurementRepository)
    (formatRFC3339 : Time → String) (sensorID measurement unit : String) (start end_ : Time)
    (result : QueryTableResult) (summary : repository.MeasurementSummary)
    (hquery : m.queryAPI.Query
        (repository.summaryQuery m.bucket (formatRFC3339 start) (formatRFC3339 end_)
          measurement sensorID unit) = .ok result)
    (hsummary : m.GetMeasurementSummary formatRFC3339 sensorID measurement unit start end_
        = .ok summary) :
    Value.float64 summary.MeanValue
        = (repository.lastTableValue "mean" result.rows).getD (.float64 (.finite 0))
      ∧ Value.float64 summary.MedianValue
        = (repository.lastTableValue "median" result.rows).getD (.float64 (.finite 0)) := by
  simp only [repository.MeasurementRepository.GetMeasurementSummary, hquery] at hsummary
  have h := repository.summaryLoop_fieldOf result.rows repository.emptySummary summary hsummary
  exact ⟨h "mean" (by decide), h "median" (by decide)⟩

/-- Witness of C7's amended theorem: the stream of one "mean" table holding the
daily means 10 and 20. -/
theorem repository.GetMeasurementSummary_mean_median_witness :
    Value.float64 (Float64.finite 10)
        = (repository.lastTableValue "mean" repository.twoDailyMeans.rows).getD
            (.float64 (.finite 0))
      ∧ Value.float64 (Float64.finite 0)
        = (repository.lastTableValue "median" repository.twoDailyMeans.rows).getD
            (.float64 (.finite 0)) :=
  repository.GetMeasurementSummary_mean_median
    (repository.sampleMeasurementRepository (.ok repository.twoDailyMeans))
    repository.sampleFormat "0102030405060708090a0b0c" "temperature" "celsius"
    ⟨0, 0⟩ ⟨172800, 0⟩ repository.twoDailyMeans
    { MinValue := .finite 0, MaxValue := .finite 0, MedianValue := .finite 0,
      MeanValue := .finite 10, Unit := "celsius", Count := 0 }
    rfl rfl

theorem repository.dispatchResult_unknown (w : repository.MeasurementSummary)
    (record : FluxRecord) (hlabel : record.Result ∉ repository.recognisedResultNames) :
    ∃ err, repository.dispatchResult w record = .error err := by
  simp only [repository.recognisedResultNames, List.mem_cons, List.mem_singleton,
    List.not_mem_nil, or_false, not_or] at hlabel
  obtain ⟨h1, h2, h3, h4, h5⟩ := hlabel
  refine ⟨.errorf ("unexpected result name: " ++ record.Result), ?_⟩
  simp only [repository.dispatchResult, h1, h2, h3, h4, h5, if_false]

theorem repository.summaryRow_unknown (acc : repository.MeasurementSummary) (row : RowState)
    (hchanged : row.TableChanged = true)
    (hlabel : row.Record.Result ∉ repository.recognisedResultNames) :
    ∃ err, repository.summaryRow acc row = .error err := by
  unfold repository.summaryRow
  cases row.Err with
  | some err => exact ⟨_, rfl⟩
  | none =>
    simp only [hchanged, Bool.not_true, Bool.false_eq_true, if_false]
    cases repository.captureUnit acc row.Record with
    | error err => exact ⟨_, rfl⟩
    | ok w => exact repository.dispatchResult_unknown w row.Record hlabel

theorem repository.summaryLoop_unknown (rows : List RowState)
    (hrow : ∃ row ∈ rows, row.TableChanged = true
      ∧ row.Record.Result ∉ repository.recognisedResultNames) :
    ∀ acc : repository.MeasurementSummary, ∃ err, repository.summaryLoop acc rows = .error err := by
  induction rows with
  | nil =>
    obtain ⟨row, hmem, _⟩ := hrow
    cases hmem
  | cons first rest ih =>
    intro acc
    simp only [repository.summaryLoop]
    cases hfirst : repository.summaryRow acc first with
    | error err => exact ⟨_, rfl⟩
    | ok next =>
      obtain ⟨row, hmem, hchanged, hlabel⟩ := hrow
      rcases List.mem_cons.mp hmem with heq | hrest
      · subst heq
        obtain ⟨err, herr⟩ := repository.summaryRow_unknown acc row hchanged hlabel
        rw [herr] at hfirst
        cases hfirst
      · exact ih ⟨row, hrest, hchanged, hlabel⟩ next

/-- C8, as stated, fails: the stream of a "count" table whose second row carries
the label "bogus" holds a row with an unrecognised label, and the call returns
a summary with nil error. -/
theorem repository.GetMeasurementSummary_skips_label_inside_table :
    (∃ row ∈ repository.unknownLabelInsideTable.rows,
        row.Record.Result ∉ repository.recognisedResultNames)
      ∧ repository.MeasurementRepository.GetMeasurementSummary
          (repository.sampleMeasurementRepository (.ok repository.unknownLabelInsideTable))
          repository.sampleFormat "0102030405060708090a0b0c" "temperature" "celsius"
          ⟨0, 0⟩ ⟨172800, 0⟩
        = .ok { MinValue := .finite 0, MaxValue := .finite 0, MedianValue := .finite 0,
                MeanValue := .finite 0, Unit := "celsius", Count := 1 } := by
  refine ⟨⟨repository.sampleRow false "celsius" "bogus" (.int64 1), ?_, by decide⟩, rfl⟩
  simp [repository.unknownLabelInsideTable]

/-- C8, amended: if a row of the stream that starts a table (`TableChanged`
true) carries a label other than "mean", "median", "count", "min" or "max",
`GetMeasurementSummary` returns an error and no summary. -/
theorem repository.GetMeasurementSummary_unknown_label (m : repository.MeasurementRepository)
    (formatRFC3339 : Time → String) (sensorID measurement unit : String) (start end_ : Time)
    (result : QueryTableResult)
    (hquery : m.queryAPI.Query
        (repository.summaryQuery m.bucket (formatRFC3339 start) (formatRFC3339 end_)
          measurement sensorID unit) = .ok result)
    (hrow : ∃ row ∈ result.rows, row.TableChanged = true
      ∧ row.Record.Result ∉ repository.recognisedResultNames) :
    ∃ err, m.GetMeasurementSummary formatRFC3339 sensorID measurement unit start end_
      = .error err := by
  simp only [repository.MeasurementRepository.GetMeasurementSummary, hquery]
  exact repository.summaryLoop_unknown result.rows hrow repository.emptySummary

/-- Witness of C8's amended theorem: a stream whose only table is labelled
"bogus". -/
theorem repository.GetMeasurementSummary_unknown_label_witness :
    ∃ err, repository.MeasurementRepository.GetMeasurementSummary
        (repository.sampleMeasurementRepository (.ok repository.unknownLabelTable))
        repository.sampleFormat "0102030405060708090a0b0c" "temperature" "celsius"
        ⟨0, 0⟩ ⟨172800, 0⟩ = .error err :=
  repository.GetMeasurementSummary_unknown_label
    (repository.sampleMeasurementRepository (.ok repository.unknownLabelTable))
    repository.sampleFormat "0102030405060708090a0b0c" "temperature" "celsius"
    ⟨0, 0⟩ ⟨172800, 0⟩ repository.unknownLabelTable rfl
    ⟨repository.sampleRow true "celsius" "bogus" (.int64 1),
      by simp [repository.unknownLabelTable], rfl, by decide⟩

/-- C9 (the code departs from it): when the iterator stops with an error after
delivering a "count" row, `GetMeasurementSummary` returns the partially filled
summary with nil error; a failing query transport does give an error. -/
theorem repository.GetMeasurementSummary_partial_on_iterator_error :
    repository.brokenAfterCount.finalErr = some (.driver "unexpected EOF")
      ∧ repository.MeasurementRepository.GetMeasurementSummary
          (repository.sampleMeasurementRepository (.ok repository.brokenAfterCount))
          repository.sampleFormat "0102030405060708090a0b0c" "temperature" "celsius"
          ⟨0, 0⟩ ⟨172800, 0⟩
        = .ok { MinValue := .finite 0, MaxValue := .finite 0, MedianValue := .finite 0,
                MeanValue := .finite 0, Unit := "celsius", Count := 3 }
      ∧ ∀ (m : repository.MeasurementRepository) (formatRFC3339 : Time → String)
          (sensorID measurement unit : String) (start end_ : Time),
          (∃ err, m.queryAPI.Query
              (repository.summaryQuery m.bucket (formatRFC3339 start) (formatRFC3339 end_)
                measurement sensorID unit) = .error err) →
            ∃ err, m.GetMeasurementSummary formatRFC3339 sensorID measurement unit start end_
              = .error err := by
  refine ⟨rfl, rfl, ?_⟩
  rintro m formatRFC3339 sensorID measurement unit start end_ ⟨err, herr⟩
  refine ⟨.wrap "failed to query measurement summary" err, ?_⟩
  simp only [repository.MeasurementRepository.GetMeasurementSummary, herr]

/-- C10: a successful `CreateMeasurement` writes one point stamped with the
clock reading of the call, carrying name, unit, sensor id and value of the
measurement unchanged, and sets the measurement's Timestamp to that reading,
whatever Timestamp the caller supplied; the clock reading not being the zero
time, the resulting Timestamp is not zero. -/
theorem repository.CreateMeasurement_stamps_clock (m : repository.MeasurementRepository)
    (now : Time) (measurement : repository.Measurement)
    (hok : (m.CreateMeasurement now measurement).err = none)
    (hclock : now.IsZero = false) :
    (m.CreateMeasurement now measurement).calls
        = [.WritePoint
            { measurement := measurement.Name,
              tags := [("unit", measurement.Unit), ("sensor_id", measurement.SensorID)],
              fields := [("value", .float64 measurement.Value)],
              time := now }]
      ∧ (m.CreateMeasurement now measurement).measurement
        = { Name := measurement.Name, SensorID := measurement.SensorID,
            Unit := measurement.Unit, Value := measurement.Value, Timestamp := now }
      ∧ (m.CreateMeasurement now measurement).measurement.Timestamp.IsZero = false := by
  unfold repository.MeasurementRepository.CreateMeasurement at hok ⊢
  cases hw : m.writeAPI.WritePoint (repository.measurementPoint measurement now) with
  | some err => simp [hw] at hok
  | none =>
    simp only [hw]
    refine ⟨?_, ?_, ?_⟩ <;> first | rfl | trivial

/-- Witness of C10's theorem: a temperature reading with a caller-supplied
timestamp, written at clock reading (1700000000, 5). -/
theorem repository.CreateMeasurement_stamps_clock_witness :
    (repository.MeasurementRepository.CreateMeasurement
        (repository.sampleMeasurementRepository (.ok ⟨[], none⟩)) ⟨1700000000, 5⟩
        { Name := "temperature", SensorID := "0102030405060708090a0b0c", Unit := "celsius",
          Value := .finite 15, Timestamp := ⟨7, 0⟩ }).measurement
      = { Name := "temperature", SensorID := "0102030405060708090a0b0c", Unit := "celsius",
          Value := .finite 15, Timestamp := ⟨1700000000, 5⟩ } :=
  (repository.CreateMeasurement_stamps_clock
    (repository.sampleMeasurementRepository (.ok ⟨[], none⟩)) ⟨1700000000, 5⟩
    { Name := "temperature", SensorID := "0102030405060708090a0b0c", Unit := "celsius",
      Value := .finite 15, Timestamp := ⟨7, 0⟩ } rfl rfl).2.1

/-! ## Identifiers, the sensor mappings and the sensor handlers -/

theorem primitive.fromHexChar_digitChar (n : Nat) (h : n < 16) :
    primitive.fromHexChar (Nat.digitChar n) = some n := by
  interval_cases n <;> rfl

theorem primitive.utf8Size_digitChar (n : Nat) (h : n < 16) :
    (Nat.digitChar n).utf8Size = 1 := by
  interval_cases n <;> rfl

theorem primitive.decodeHex_hexDigits (bytes : List Nat) (h : ∀ b ∈ bytes, b < 256) :
    primitive.decodeHex
        (bytes.flatMap fun b => [Nat.digitChar (b / 16), Nat.digitChar (b % 16)])
      = some bytes := by
  induction bytes with
  | nil => rfl
  | cons b rest ih =>
    have hb : b < 256 := h b (List.mem_cons_self _ _)
    have hrest := ih fun x hx => h x (List.mem_cons_of_mem _ hx)
    have hhi := primitive.fromHexChar_digitChar (b / 16) (by omega)
    have hlo := primitive.fromHexChar_digitChar (b % 16) (by omega)
    show primitive.decodeHex
        (Nat.digitChar (b / 16) :: Nat.digitChar (b % 16)
          :: rest.flatMap fun b => [Nat.digitChar (b / 16), Nat.digitChar (b % 16)])
      = some (b :: rest)
    simp only [primitive.decodeHex, hhi, hlo, hrest]
    have hsplit : b / 16 * 16 + b % 16 = b := by omega
    rw [hsplit]

theorem primitive.utf8ByteSize_hexDigits (bytes : List Nat) (h : ∀ b ∈ bytes, b < 256) :
    String.utf8ByteSize.go
        (bytes.flatMap fun b => [Nat.digitChar (b / 16), Nat.digitChar (b % 16)])
      = 2 * bytes.length := by
  induction bytes with
  | nil => rfl
  | cons b rest ih =>
    have hb : b < 256 := h b (List.mem_cons_self _ _)
    have hrest := ih fun x hx => h x (List.mem_cons_of_mem _ hx)
    have hhi := primitive.utf8Size_digitChar (b / 16) (by omega)
    have hlo := primitive.utf8Size_digitChar (b % 16) (by omega)
    show String.utf8ByteSize.go
        (Nat.digitChar (b / 16) :: Nat.digitChar (b % 16)
          :: rest.flatMap fun b => [Nat.digitChar (b / 16), Nat.digitChar (b % 16)])
      = 2 * (rest.length + 1)
    simp only [String.utf8ByteSize.go, hhi, hlo, hrest]
    omega

theorem primitive.ObjectIDFromHex_Hex (id : primitive.ObjectID) (h : id.WellFormed) :
    primitive.ObjectIDFromHex id.Hex = .ok id := by
  obtain ⟨hlen, hbytes⟩ := h
  have hsize : id.Hex.utf8ByteSize = 24 := by
    simp only [primitive.ObjectID.Hex, String.utf8ByteSize,
      primitive.utf8ByteSize_hexDigits id.bytes hbytes, hlen]
  have hdecode : primitive.decodeHex id.Hex.toList = some id.bytes := by
    simp only [primitive.ObjectID.Hex, String.toList]
    exact primitive.decodeHex_hexDigits id.bytes hbytes
  simp only [primitive.ObjectIDFromHex, hsize, hdecode, ne_eq, not_true_eq_false, if_false]

theorem api.Measurement_validate_ignores_SensorID (m : api.Measurement) (other : String) :
    api.Measurement.ValidateWithContext { m with SensorID := other } = m.ValidateWithContext :=
  rfl

theorem api.PostMeasurement_after_lookup
    (sensorsRepository : repository.SensorsRepository)
    (measurementRepository : repository.MeasurementRepository) (now : Time) (id : String)
    (m : api.Measurement) (sensor : repository.Sensor)
    (hvalid : m.ValidateWithContext = none)
    (hsensor : (sensorsRepository.GetSensorByID id).sensor = some sensor)
    (herr : (sensorsRepository.GetSensorByID id).err = none) :
    api.PostMeasurement sensorsRepository measurementRepository now id (some m)
      = match measurementRepository.writeAPI.WritePoint
            { measurement := m.Name,
              tags := [("unit", m.Unit), ("sensor_id", sensor.ID.Hex)],
              fields := [("value", .float64 m.Value)],
              time := now } with
        | some _ =>
          ({ status := api.StatusInternalServerError,
             body := .error "failed to create measurement" },
            (sensorsRepository.GetSensorByID id).calls
              ++ [.WritePoint
                  { measurement := m.Name,
                    tags := [("unit", m.Unit), ("sensor_id", sensor.ID.Hex)],
                    fields := [("value", .float64 m.Value)],
                    time := now }])
        | none =>
          ({ status := api.StatusCreated,
             body := .measurement
               { Name := m.Name, SensorID := sensor.ID.Hex, Unit := m.Unit, Value := m.Value,
                 Timestamp := now } },
            (sensorsRepository.GetSensorByID id).calls
              ++ [.WritePoint
                  { measurement := m.Name,
                    tags := [("unit", m.Unit), ("sensor_id", sensor.ID.Hex)],
                    fields := [("value", .float64 m.Value)],
                    time := now }]) := by
  have hpoint : repository.measurementPoint
      { api.mapAPIMeasurementToDBMeasurement m with SensorID := sensor.ID.Hex } now
      = { measurement := m.Name,
          tags := [("unit", m.Unit), ("sensor_id", sensor.ID.Hex)],
          fields := [("value", .float64 m.Value)],
          time := now } := rfl
  simp only [api.PostMeasurement, hvalid, herr, hsensor,
    repository.MeasurementRepository.CreateMeasurement, hpoint]
  cases measurementRepository.writeAPI.WritePoint
      { measurement := m.Name,
        tags := [("unit", m.Unit), ("sensor_id", sensor.ID.Hex)],
        fields := [("value", .float64 m.Value)],
        time := now } <;> rfl

/-- C11: when the lookup of the path id returns a sensor, the point that
`PostMeasurement` writes carries the hex identifier of that sensor as its
sensor_id, the 201 response echoes the same identifier, and the outcome does
not depend on the sensor_id of the payload. -/
theorem api.PostMeasurement_sensor_id_from_lookup
    (sensorsRepository : repository.SensorsRepository)
    (measurementRepository : repository.MeasurementRepository) (now : Time) (id : String)
    (m : api.Measurement) (sensor : repository.Sensor)
    (hvalid : m.ValidateWithContext = none)
    (hsensor : (sensorsRepository.GetSensorByID id).sensor = some sensor)
    (herr : (sensorsRepository.GetSensorByID id).err = none) :
    (api.PostMeasurement sensorsRepository measurementRepository now id (some m)).2
        = (sensorsRepository.GetSensorByID id).calls
          ++ [.WritePoint
              { measurement := m.Name,
                tags := [("unit", m.Unit), ("sensor_id", sensor.ID.Hex)],
                fields := [("value", .float64 m.Value)],
                time := now }]
      ∧ ((api.PostMeasurement sensorsRepository measurementRepository now id (some m)).1.status
            = api.StatusCreated →
          (api.PostMeasurement sensorsRepository measurementRepository now id (some m)).1.body
            = .measurement
                { Name := m.Name, SensorID := sensor.ID.Hex, Unit := m.Unit, Value := m.Value,
                  Timestamp := now })
      ∧ ∀ payloadSensorID : String,
          api.PostMeasurement sensorsRepository measurementRepository now id
              (some { m with SensorID := payloadSensorID })
            = api.PostMeasurement sensorsRepository measurementRepository now id (some m) := by
  have hm := api.PostMeasurement_after_lookup sensorsRepository measurementRepository now id m
    sensor hvalid hsensor herr
  refine ⟨?_, ?_, ?_⟩
  · rw [hm]
    split <;> rfl
  · rw [hm]
    split
    · intro h
      simp [api.StatusInternalServerError, api.StatusCreated] at h
    · intro _
      rfl
  · intro payloadSensorID
    rw [hm, api.PostMeasurement_after_lookup sensorsRepository measurementRepository now id
      { m with SensorID := payloadSensorID } sensor hvalid hsensor herr]

/-- Witness of C11's theorem: a payload whose sensor_id is "client-chosen",
posted for the stored sensor 0102030405060708090a0b0c. -/
theorem api.PostMeasurement_sensor_id_from_lookup_witness :
    (api.PostMeasurement ⟨repository.singletonCollection⟩
        (repository.sampleMeasurementRepository (.ok ⟨[], none⟩)) ⟨1, 0⟩
        "0102030405060708090a0b0c" (some api.sampleMeasurement)).1.body
      = .measurement
          { Name := "temperature", SensorID := "0102030405060708090a0b0c", Unit := "celsius",
            Value := .finite 15, Timestamp := ⟨1, 0⟩ } :=
  (api.PostMeasurement_sensor_id_from_lookup ⟨repository.singletonCollection⟩
    (repository.sampleMeasurementRepository (.ok ⟨[], none⟩)) ⟨1, 0⟩
    "0102030405060708090a0b0c" api.sampleMeasurement repository.sampleSensor
    (by decide) (by decide) (by decide)).2.1 (by decide)

/-- C12: for a well-formed identifier, `UpdateSensor` returns no error whenever
the store's update returns none, whatever the number of records matched (zero
included), and `PutSensor` with a valid payload then answers 200 with the
payload's fields and that identifier in hex form. -/
theorem api.PutSensor_unmatched_update_succeeds
    (sensorsRepository : repository.SensorsRepository) (id : String)
    (objectID : primitive.ObjectID) (hid : primitive.ObjectIDFromHex id = .ok objectID) :
    (∀ (sensor : repository.Sensor) (result : repository.UpdateResult),
        sensorsRepository.sensorsColl.UpdateByID objectID
            { name := sensor.Name, location := sensor.Location, tags := sensor.Tags }
          = .ok result →
        (sensorsRepository.UpdateSensor id sensor).err = none)
      ∧ ∀ (payload : api.Sensor) (result : repository.UpdateResult),
          payload.ValidateWithContext = none →
          sensorsRepository.sensorsColl.UpdateByID objectID
              { name := payload.Name,
                location :=
                  { Type_ := "Point",
                    Coordinates := [payload.Location.Longitude, payload.Location.Latitude] },
                tags := payload.Tags }
            = .ok result →
          (api.PutSensor sensorsRepository id (some payload)).1
            = some { status := api.StatusOK,
                     body := .sensor { payload with ID := objectID.Hex } } := by
  constructor
  · intro sensor result hupdate
    simp only [repository.SensorsRepository.UpdateSensor, hid, hupdate]
  · intro payload result hvalid hupdate
    simp only [api.PutSensor, hvalid, repository.SensorsRepository.UpdateSensor, hid,
      api.newDBSensor, hupdate, api.sensorResponse, api.mapDBSensorToAPISensor, Option.map_some']

/-- Witness of C12's theorem: the identifier 000000000000000000000000 against a
store without records, whose update matches nothing. -/
theorem api.PutSensor_unmatched_update_succeeds_witness :
    (repository.emptyCollection.UpdateByID ⟨List.replicate 12 0⟩
          { name := "s1", location := { Type_ := "Point", Coordinates := [.finite 1, .finite 1] },
            tags := ["a"] }
        = .ok { MatchedCount := 0, ModifiedCount := 0, UpsertedCount := 0 })
      ∧ (api.PutSensor ⟨repository.emptyCollection⟩ "000000000000000000000000"
          (some api.sampleSensorPayload)).1
        = some { status := api.StatusOK,
                 body := .sensor { api.sampleSensorPayload with
                   ID := primitive.ObjectID.Hex ⟨List.replicate 12 0⟩ } } :=
  ⟨rfl,
    (api.PutSensor_unmatched_update_succeeds ⟨repository.emptyCollection⟩
      "000000000000000000000000" ⟨List.replicate 12 0⟩ rfl).2 api.sampleSensorPayload
      { MatchedCount := 0, ModifiedCount := 0, UpsertedCount := 0 } (by decide) rfl⟩

/-- C13: building the stored sensor as `PostSensor` does, giving it the
identifier `i` and mapping it back yields the payload with `ID` the hex form of
`i`, longitude and latitude in place; so, for a valid payload, a store that
assigns `i` and returns that record for `i`, the body of the create response
and the body of the get of `i` are the same sensor. -/
theorem api.sensor_mapping_round_trip (s : api.Sensor) (i : primitive.ObjectID) :
    api.mapDBSensorToAPISensor { api.newDBSensor s with ID := i } = some { s with ID := i.Hex }
      ∧ ∀ sensorsRepository : repository.SensorsRepository,
          s.ValidateWithContext = none →
          i.WellFormed →
          sensorsRepository.sensorsColl.InsertOne (api.newDBSensor s) = .ok i →
          sensorsRepository.sensorsColl.FindOneByID i = .ok { api.newDBSensor s with ID := i } →
          (api.PostSensor sensorsRepository (some s)).1
              = some { status := api.StatusCreated, body := .sensor { s with ID := i.Hex } }
            ∧ (api.GetSensorByID sensorsRepository i.Hex).1
              = some { status := api.StatusOK, body := .sensor { s with ID := i.Hex } } := by
  refine ⟨rfl, ?_⟩
  intro sensorsRepository hvalid hwf hinsert hfind
  constructor
  · simp only [api.PostSensor, hvalid, repository.SensorsRepository.CreateSensor, hinsert]
    rfl
  · simp only [api.GetSensorByID, repository.SensorsRepository.GetSensorByID,
      primitive.ObjectIDFromHex_Hex i hwf, hfind]
    rfl

/-- Witness of C13's theorem: the payload "s1" at (1, 1) with tag "a" and a
store that assigns the identifier 0102030405060708090a0b0c. -/
theorem api.sensor_mapping_round_trip_witness :
    (api.PostSensor ⟨repository.assigningCollection⟩ (some api.sampleSensorPayload)).1
        = some { status := api.StatusCreated,
                 body := .sensor { api.sampleSensorPayload with
                   ID := repository.sampleSensor.ID.Hex } }
      ∧ (api.GetSensorByID ⟨repository.assigningCollection⟩ repository.sampleSensor.ID.Hex).1
        = some { status := api.StatusOK,
                 body := .sensor { api.sampleSensorPayload with
                   ID := repository.sampleSensor.ID.Hex } } :=
  (api.sensor_mapping_round_trip api.sampleSensorPayload repository.sampleSensor.ID).2
    ⟨repository.assigningCollection⟩ (by decide) ⟨rfl, by decide⟩ rfl rfl

/-! ## Unit and fields of the summary -/

theorem repository.dispatchResult_Unit (w next : repository.MeasurementSummary)
    (record : FluxRecord) (h : repository.dispatchResult w record = .ok next) :
    next.Unit = w.Unit := by
  unfold repository.dispatchResult at h
  simp only at h
  repeat' split at h
  all_goals first
    | (cases h; rfl)
    | cases h

theorem repository.summaryRow_Unit (acc next : repository.MeasurementSummary) (row : RowState)
    (h : repository.summaryRow acc row = .ok next) :
    next.Unit
      = if acc.Unit = "" then (repository.firstTableUnit [row]).getD "" else acc.Unit := by
  unfold repository.summaryRow at h
  cases herr : row.Err with
  | some err =>
    rw [herr] at h
    cases h
  | none =>
    rw [herr] at h
    cases htc : row.TableChanged with
    | false =>
      simp only [htc, Bool.not_false, if_true] at h
      cases h
      by_cases hu : acc.Unit = ""
      · simp [repository.firstTableUnit, htc, hu]
      · simp [hu]
    | true =>
      simp only [htc, Bool.not_true, Bool.false_eq_true, if_false] at h
      cases hcu : repository.captureUnit acc row.Record with
      | error err =>
        rw [hcu] at h
        cases h
      | ok w =>
        rw [hcu] at h
        rw [repository.dispatchResult_Unit w next row.Record h]
        unfold repository.captureUnit at hcu
        by_cases hu : acc.Unit = ""
        · rw [if_pos hu] at hcu
          rw [if_pos hu]
          cases hv : row.Record.ValueByKey "unit" with
          | string unit =>
            rw [hv] at hcu
            cases hcu
            by_cases hunit : unit = ""
            · simp [repository.firstTableUnit, htc, hv, hunit]
            · simp [repository.firstTableUnit, htc, hv, hunit]
          | nil => rw [hv] at hcu; cases hcu
          | float64 f => rw [hv] at hcu; cases hcu
          | int64 i => rw [hv] at hcu; cases hcu
          | uint64 n => rw [hv] at hcu; cases hcu
          | bool b => rw [hv] at hcu; cases hcu
          | time t => rw [hv] at hcu; cases hcu
          | bytes b => rw [hv] at hcu; cases hcu
        · rw [if_neg hu] at hcu
          cases hcu
          rw [if_neg hu]

theorem repository.firstTableUnit_cons (row : RowState) (rest : List RowState) :
    repository.firstTableUnit (row :: rest)
      = match repository.firstTableUnit [row] with
        | some unit => some unit
        | none => repository.firstTableUnit rest := by
  simp only [repository.firstTableUnit]
  split
  · split <;> rfl
  · rfl

theorem repository.firstTableUnit_ne_empty (rows : List RowState) (unit : String)
    (h : repository.firstTableUnit rows = some unit) : unit ≠ "" := by
  induction rows with
  | nil => cases h
  | cons row rest ih =>
    simp only [repository.firstTableUnit] at h
    split at h
    · split at h
      · exact ih h
      · cases h
        assumption
    · exact ih h

theorem repository.summaryLoop_Unit (rows : List RowState) :
    ∀ (acc summary : repository.MeasurementSummary),
      repository.summaryLoop acc rows = .ok summary →
      summary.Unit
        = if acc.Unit = "" then (repository.firstTableUnit rows).getD "" else acc.Unit := by
  induction rows with
  | nil =>
    intro acc summary h
    simp only [repository.summaryLoop] at h
    cases h
    by_cases hu : acc.Unit = ""
    · simp [repository.firstTableUnit, hu]
    · simp [hu]
  | cons row rest ih =>
    intro acc summary h
    simp only [repository.summaryLoop] at h
    cases hrow : repository.summaryRow acc row with
    | error err =>
      rw [hrow] at h
      cases h
    | ok next =>
      rw [hrow] at h
      rw [ih next summary h, repository.summaryRow_Unit acc next row hrow,
        repository.firstTableUnit_cons row rest]
      by_cases hu : acc.Unit = ""
      · simp only [hu, if_true]
        cases hfirst : repository.firstTableUnit [row] with
        | none => simp
        | some unit =>
          have hne := repository.firstTableUnit_ne_empty [row] unit hfirst
          simp [hne]
      · simp [hu]

theorem repository.summaryRow_string_unit (acc next : repository.MeasurementSummary)
    (row : RowState) (h : repository.summaryRow acc row = .ok next) (hacc : acc.Unit = "")
    (hchanged : row.TableChanged = true) :
    ∃ carried, row.Record.ValueByKey "unit" = .string carried := by
  unfold repository.summaryRow at h
  cases herr : row.Err with
  | some err =>
    rw [herr] at h
    cases h
  | none =>
    rw [herr] at h
    simp only [hchanged, Bool.not_true, Bool.false_eq_true, if_false] at h
    cases hcu : repository.captureUnit acc row.Record with
    | error err =>
      rw [hcu] at h
      cases h
    | ok w =>
      unfold repository.captureUnit at hcu
      rw [if_pos hacc] at hcu
      cases hv : row.Record.ValueByKey "unit" with
      | string carried => exact ⟨carried, rfl⟩
      | nil => rw [hv] at hcu; cases hcu
      | float64 f => rw [hv] at hcu; cases hcu
      | int64 i => rw [hv] at hcu; cases hcu
      | uint64 n => rw [hv] at hcu; cases hcu
      | bool b => rw [hv] at hcu; cases hcu
      | time t => rw [hv] at hcu; cases hcu
      | bytes b => rw [hv] at hcu; cases hcu

theorem repository.firstCarriedUnit_of_string (row : RowState) (rest : List RowState)
    (carried : String) (hunit : row.Record.ValueByKey "unit" = .string carried)
    (hne : carried ≠ "") :
    repository.firstCarriedUnit (row :: rest) = some carried := by
  simp only [repository.firstCarriedUnit, hunit, hne, if_false]

theorem repository.firstCarriedUnit_append (front back : List RowState)
    (h : repository.firstCarriedUnit front = none) :
    repository.firstCarriedUnit (front ++ back) = repository.firstCarriedUnit back := by
  induction front with
  | nil => rfl
  | cons row rest ih =>
    rw [List.cons_append]
    simp only [repository.firstCarriedUnit] at h ⊢
    split at h
    · split at h
      · rename_i hunit hblank
        simp only [hunit, hblank, if_true]
        exact ih h
      · cases h
    · exact ih h

/-- C15: on a stream as the client delivers it (its first row starts a table,
and a unit is never the empty string, an empty field being nil), when
`GetMeasurementSummary` returns a summary its Unit is the unit of the first row
of the stream that carries a unit, or empty when no row carries one; rows
without a unit before that row are passed over, and the rows after it never
change the Unit, whatever unit they carry. -/
theorem repository.GetMeasurementSummary_unit (m : repository.MeasurementRepository)
    (formatRFC3339 : Time → String) (sensorID measurement unit : String) (start end_ : Time)
    (result : QueryTableResult) (summary : repository.MeasurementSummary)
    (hquery : m.queryAPI.Query
        (repository.summaryQuery m.bucket (formatRFC3339 start) (formatRFC3339 end_)
          measurement sensorID unit) = .ok result)
    (hsummary : m.GetMeasurementSummary formatRFC3339 sensorID measurement unit start end_
        = .ok summary)
    (hfirst : ∀ (row : RowState) (rest : List RowState),
      result.rows = row :: rest → row.TableChanged = true)
    (hblank : ∀ row ∈ result.rows, row.Record.ValueByKey "unit" ≠ .string "") :
    summary.Unit = (repository.firstCarriedUnit result.rows).getD ""
      ∧ ∀ (front : List RowState) (row : RowState) (back : List RowState) (carried : String),
          result.rows = front ++ row :: back →
          repository.firstCarriedUnit front = none →
          row.Record.ValueByKey "unit" = .string carried →
          summary.Unit = carried := by
  simp only [repository.MeasurementRepository.GetMeasurementSummary, hquery] at hsummary
  have h := repository.summaryLoop_Unit result.rows repository.emptySummary summary hsummary
  have htable : summary.Unit = (repository.firstTableUnit result.rows).getD "" := by
    rw [h]
    simp [repository.emptySummary]
  have hunit : summary.Unit = (repository.firstCarriedUnit result.rows).getD "" := by
    rw [htable]
    cases hrows : result.rows with
    | nil => rfl
    | cons row rest =>
      have hchanged := hfirst row rest hrows
      rw [hrows] at hsummary
      simp only [repository.summaryLoop] at hsummary
      cases hrow : repository.summaryRow repository.emptySummary row with
      | error err =>
        rw [hrow] at hsummary
        cases hsummary
      | ok next =>
        obtain ⟨carried, hcarried⟩ :=
          repository.summaryRow_string_unit repository.emptySummary next row hrow rfl hchanged
        have hne : carried ≠ "" := by
          intro he
          exact hblank row (by rw [hrows]; exact List.mem_cons_self _ _) (he ▸ hcarried)
        rw [repository.firstCarriedUnit_of_string row rest carried hcarried hne]
        simp only [repository.firstTableUnit, hchanged, hcarried, hne, if_false]
  refine ⟨hunit, ?_⟩
  intro front row back carried hrows hfront hcarried
  have hne : carried ≠ "" := by
    intro he
    exact hblank row (by rw [hrows]; simp) (he ▸ hcarried)
  rw [hunit, hrows, repository.firstCarriedUnit_append front (row :: back) hfront,
    repository.firstCarriedUnit_of_string row back carried hcarried hne]
  rfl

/-- Witness of C15's theorem: five tables in "celsius", the "min" table holding
a second row. -/
theorem repository.GetMeasurementSummary_unit_witness :
    ("celsius" : String) = (repository.firstCarriedUnit repository.fiveTables.rows).getD ""
      ∧ ("celsius" : String) = "celsius" :=
  ⟨(repository.GetMeasurementSummary_unit
      (repository.sampleMeasurementRepository (.ok repository.fiveTables))
      repository.sampleFormat "0102030405060708090a0b0c" "temperature" "celsius"
      ⟨0, 0⟩ ⟨172800, 0⟩ repository.fiveTables
      { MinValue := .finite 15, MaxValue := .finite 15, MedianValue := .finite 31,
        MeanValue := .finite 30, Unit := "celsius", Count := 10 } rfl rfl
      (fun _ _ h => by cases h; rfl) (by decide)).1,
    (repository.GetMeasurementSummary_unit
      (repository.sampleMeasurementRepository (.ok repository.fiveTables))
      repository.sampleFormat "0102030405060708090a0b0c" "temperature" "celsius"
      ⟨0, 0⟩ ⟨172800, 0⟩ repository.fiveTables
      { MinValue := .finite 15, MaxValue := .finite 15, MedianValue := .finite 31,
        MeanValue := .finite 30, Unit := "celsius", Count := 10 } rfl rfl
      (fun _ _ h => by cases h; rfl) (by decide)).2
      [] (repository.sampleRow true "celsius" "mean" (.float64 (.finite 30)))
      [repository.sampleRow true "celsius" "median" (.float64 (.finite 31)),
        repository.sampleRow true "celsius" "count" (.int64 10),
        repository.sampleRow true "celsius" "min" (.float64 (.finite 15)),
        repository.sampleRow false "celsius" "min" (.float64 (.finite 16)),
        repository.sampleRow true "celsius" "max" (.float64 (.finite 15))]
      "celsius" rfl rfl rfl⟩

theorem repository.captureUnit_dispatchable (acc : repository.MeasurementSummary)
    (row : RowState) (h : repository.dispatchable row = true) :
    ∃ w, repository.captureUnit acc row.Record = .ok w := by
  unfold repository.dispatchable at h
  simp only [Bool.and_eq_true] at h
  obtain ⟨⟨hunit, _⟩, _⟩ := h
  unfold repository.captureUnit
  by_cases hu : acc.Unit = ""
  · rw [if_pos hu]
    cases hv : row.Record.ValueByKey "unit" with
    | string unit => exact ⟨_, rfl⟩
    | nil => simp [hv] at hunit
    | float64 f => simp [hv] at hunit
    | int64 i => simp [hv] at hunit
    | uint64 n => simp [hv] at hunit
    | bool b => simp [hv] at hunit
    | time t => simp [hv] at hunit
    | bytes b => simp [hv] at hunit
  · rw [if_neg hu]
    exact ⟨_, rfl⟩

theorem repository.dispatchResult_dispatchable (w : repository.MeasurementSummary)
    (row : RowState) (h : repository.dispatchable row = true) :
    ∃ next, repository.dispatchResult w row.Record = .ok next := by
  unfold repository.dispatchable at h
  simp only [Bool.and_eq_true, decide_eq_true_eq] at h
  obtain ⟨⟨_, hlabel⟩, htype⟩ := h
  simp only [repository.recognisedResultNames, List.mem_cons, List.mem_singleton,
    List.not_mem_nil, or_false] at hlabel
  unfold repository.dispatchResult
  simp only [repository.meanResultName, repository.medianResultName,
    repository.countResultName, repository.minResultName, repository.maxResultName]
    at hlabel htype ⊢
  rcases hlabel with hl | hl | hl | hl | hl <;>
    · rw [hl] at htype ⊢
      simp only [String.reduceEq, if_false, if_true] at htype ⊢
      cases hv : row.Record.Value <;> simp [hv] at htype ⊢

theorem repository.summaryRow_dispatchable (acc : repository.MeasurementSummary)
    (row : RowState) (herr : row.Err = none)
    (h : row.TableChanged = true → repository.dispatchable row = true) :
    ∃ next, repository.summaryRow acc row = .ok next := by
  unfold repository.summaryRow
  rw [herr]
  cases htc : row.TableChanged with
  | false => exact ⟨acc, by simp⟩
  | true =>
    obtain ⟨w, hw⟩ := repository.captureUnit_dispatchable acc row (h htc)
    obtain ⟨next, hnext⟩ := repository.dispatchResult_dispatchable w row (h htc)
    exact ⟨next, by simp [hw, hnext]⟩

theorem repository.summaryLoop_dispatchable (rows : List RowState)
    (herr : ∀ row ∈ rows, row.Err = none)
    (h : ∀ row ∈ rows, row.TableChanged = true → repository.dispatchable row = true) :
    ∀ acc : repository.MeasurementSummary,
      ∃ summary, repository.summaryLoop acc rows = .ok summary := by
  induction rows with
  | nil => exact fun acc => ⟨acc, rfl⟩
  | cons row rest ih =>
    intro acc
    obtain ⟨next, hnext⟩ := repository.summaryRow_dispatchable acc row
      (herr row (List.mem_cons_self _ _)) (h row (List.mem_cons_self _ _))
    obtain ⟨summary, hsummary⟩ := ih (fun r hr => herr r (List.mem_cons_of_mem _ hr))
      (fun r hr => h r (List.mem_cons_of_mem _ hr)) next
    exact ⟨summary, by simp only [repository.summaryLoop, hnext, hsummary]⟩

theorem repository.summaryLoop_filter (rows : List RowState)
    (herr : ∀ row ∈ rows, row.Err = none) :
    ∀ acc : repository.MeasurementSummary,
      repository.summaryLoop acc rows
        = repository.summaryLoop acc (rows.filter fun row => row.TableChanged) := by
  induction rows with
  | nil => exact fun acc => rfl
  | cons row rest ih =>
    intro acc
    have hrest := ih fun r hr => herr r (List.mem_cons_of_mem _ hr)
    have hrow := herr row (List.mem_cons_self _ _)
    cases htc : row.TableChanged with
    | false =>
      have hskip : repository.summaryRow acc row = .ok acc := by
        simp [repository.summaryRow, hrow, htc]
      simp only [List.filter_cons, htc, repository.summaryLoop, hskip]
      exact hrest acc
    | true =>
      simp only [List.filter_cons, htc, repository.summaryLoop, if_true]
      cases repository.summaryRow acc row with
      | error err => rfl
      | ok next => exact hrest next

/-- C17: for a stream delivered without error in which every table-starting
row carries a string unit, a recognised label and a value of the type read for
that label, `GetMeasurementSummary` succeeds, and each of MeanValue,
MedianValue, Count, MinValue, MaxValue is the value of the first row of the
last table carrying its label, or zero when no table carries it; rows with
`TableChanged` false do not influence the summary, and the empty stream gives
the all-zero summary. -/
theorem repository.GetMeasurementSummary_dispatch (m : repository.MeasurementRepository)
    (formatRFC3339 : Time → String) (sensorID measurement unit : String) (start end_ : Time)
    (result : QueryTableResult)
    (hquery : m.queryAPI.Query
        (repository.summaryQuery m.bucket (formatRFC3339 start) (formatRFC3339 end_)
          measurement sensorID unit) = .ok result)
    (herr : ∀ row ∈ result.rows, row.Err = none)
    (hrows : ∀ row ∈ result.rows, row.TableChanged = true →
      repository.dispatchable row = true) :
    ∃ summary : repository.MeasurementSummary,
      m.GetMeasurementSummary formatRFC3339 sensorID measurement unit start end_ = .ok summary
        ∧ Value.float64 summary.MeanValue
          = (repository.lastTableValue "mean" result.rows).getD (.float64 (.finite 0))
        ∧ Value.float64 summary.MedianValue
          = (repository.lastTableValue "median" result.rows).getD (.float64 (.finite 0))
        ∧ Value.int64 summary.Count
          = (repository.lastTableValue "count" result.rows).getD (.int64 0)
        ∧ Value.float64 summary.MinValue
          = (repository.lastTableValue "min" result.rows).getD (.float64 (.finite 0))
        ∧ Value.float64 summary.MaxValue
          = (repository.lastTableValue "max" result.rows).getD (.float64 (.finite 0))
        ∧ (∀ rows : List RowState, (∀ row ∈ rows, row.Err = none) →
            (rows.filter fun row => row.TableChanged)
              = (result.rows.filter fun row => row.TableChanged) →
            repository.summaryLoop repository.emptySummary rows = .ok summary)
        ∧ (result.rows = [] → summary = repository.emptySummary) := by
  obtain ⟨summary, hsummary⟩ :=
    repository.summaryLoop_dispatchable result.rows herr hrows repository.emptySummary
  have hfields := repository.summaryLoop_fieldOf result.rows repository.emptySummary summary
    hsummary
  refine ⟨summary, ?_, hfields "mean" (by decide), hfields "median" (by decide),
    hfields "count" (by decide), hfields "min" (by decide), hfields "max" (by decide), ?_, ?_⟩
  · simp only [repository.MeasurementRepository.GetMeasurementSummary, hquery, hsummary]
  · intro rows hrowsErr hfilter
    rw [repository.summaryLoop_filter rows hrowsErr, hfilter,
      ← repository.summaryLoop_filter result.rows herr]
    exact hsummary
  · intro hempty
    rw [hempty] at hsummary
    simp only [repository.summaryLoop] at hsummary
    cases hsummary
    rfl

/-- Witness of C17's theorem: five tables, the "min" table holding a second
row. -/
theorem repository.GetMeasurementSummary_dispatch_witness :
    ∃ summary : repository.MeasurementSummary,
      repository.MeasurementRepository.GetMeasurementSummary
          (repository.sampleMeasurementRepository (.ok repository.fiveTables))
          repository.sampleFormat "0102030405060708090a0b0c" "temperature" "celsius"
          ⟨0, 0⟩ ⟨172800, 0⟩ = .ok summary
        ∧ Value.float64 summary.MeanValue
          = (repository.lastTableValue "mean" repository.fiveTables.rows).getD
              (.float64 (.finite 0))
        ∧ Value.float64 summary.MedianValue
          = (repository.lastTableValue "median" repository.fiveTables.rows).getD
              (.float64 (.finite 0))
        ∧ Value.int64 summary.Count
          = (repository.lastTableValue "count" repository.fiveTables.rows).getD (.int64 0)
        ∧ Value.float64 summary.MinValue
          = (repository.lastTableValue "min" repository.fiveTables.rows).getD
              (.float64 (.finite 0))
        ∧ Value.float64 summary.MaxValue
          = (repository.lastTableValue "max" repository.fiveTables.rows).getD
              (.float64 (.finite 0))
        ∧ (∀ rows : List RowState, (∀ row ∈ rows, row.Err = none) →
            (rows.filter fun row => row.TableChanged)
              = (repository.fiveTables.rows.filter fun row => row.TableChanged) →
            repository.summaryLoop repository.emptySummary rows = .ok summary)
        ∧ (repository.fiveTables.rows = [] → summary = repository.emptySummary) :=
  repository.GetMeasurementSummary_dispatch
    (repository.sampleMeasurementRepository (.ok repository.fiveTables))
    repository.sampleFormat "0102030405060708090a0b0c" "temperature" "celsius"
    ⟨0, 0⟩ ⟨172800, 0⟩ repository.fiveTables rfl (by decide) (by decide)

/-! ## The query text -/

theorem List.eq_of_append_separator {c : Char} :
    ∀ {l₁ l₂ r₁ r₂ : List Char}, c ∉ l₁ → c ∉ l₂ → l₁ ++ c :: r₁ = l₂ ++ c :: r₂ →
      l₁ = l₂ ∧ r₁ = r₂ := by
  intro l₁
  induction l₁ with
  | nil =>
    intro l₂ r₁ r₂ _ h₂ h
    cases l₂ with
    | nil =>
      simp only [List.nil_append, List.cons.injEq, true_and] at h
      exact ⟨rfl, h⟩
    | cons d rest =>
      simp only [List.nil_append, List.cons_append, List.cons.injEq] at h
      exact absurd (h.1 ▸ List.mem_cons_self _ _) h₂
  | cons a rest ih =>
    intro l₂ r₁ r₂ h₁ h₂ h
    cases l₂ with
    | nil =>
      simp only [List.nil_append, List.cons_append, List.cons.injEq] at h
      exact absurd (h.1 ▸ List.mem_cons_self _ _) h₁
    | cons d rest₂ =>
      simp only [List.cons_append, List.cons.injEq] at h
      obtain ⟨hl, hr⟩ := ih (fun hm => h₁ (List.mem_cons_of_mem _ hm))
        (fun hm => h₂ (List.mem_cons_of_mem _ hm)) h.2
      exact ⟨by rw [h.1, hl], hr⟩

theorem List.eq_of_append_separator_append {c : Char} {s l₁ l₂ r₁ r₂ : List Char}
    (h₁ : c ∉ l₁) (h₂ : c ∉ l₂) (h : l₁ ++ ((c :: s) ++ r₁) = l₂ ++ ((c :: s) ++ r₂)) :
    l₁ = l₂ ∧ r₁ = r₂ := by
  rw [List.cons_append, List.cons_append] at h
  obtain ⟨hl, hr⟩ := List.eq_of_append_separator h₁ h₂ h
  exact ⟨hl, List.append_cancel_left hr⟩

theorem repository.summaryQuery_parameters_of_eq (bucket start stop : String)
    (measurement₁ sensorID₁ unit₁ measurement₂ sensorID₂ unit₂ : String)
    (hm₁ : '"' ∉ measurement₁.data) (hs₁ : '"' ∉ sensorID₁.data) (hu₁ : '"' ∉ unit₁.data)
    (hm₂ : '"' ∉ measurement₂.data) (hs₂ : '"' ∉ sensorID₂.data) (hu₂ : '"' ∉ unit₂.data)
    (h : repository.summaryQuery bucket start stop measurement₁ sensorID₁ unit₁
      = repository.summaryQuery bucket start stop measurement₂ sensorID₂ unit₂) :
    measurement₁ = measurement₂ ∧ sensorID₁ = sensorID₂ ∧ unit₁ = unit₂ := by
  have h := congrArg String.data h
  simp only [repository.summaryQuery, String.data_append, List.append_assoc] at h
  iterate 9 replace h := List.append_cancel_left h
  obtain ⟨hm, h⟩ := List.eq_of_append_separator_append hm₁ hm₂ h
  replace h := List.append_cancel_left h
  obtain ⟨hs, h⟩ := List.eq_of_append_separator_append hs₁ hs₂ h
  replace h := List.append_cancel_left h
  obtain ⟨hu, _⟩ := List.eq_of_append_separator_append hu₁ hu₂ h
  exact ⟨String.ext hm, String.ext hs, String.ext hu⟩

/-- C18: for a fixed bucket and time range, two calls whose metric names, sensor
ids and units contain no double quote, backslash or newline build the same
query text only if the three parameters are equal; without that restriction
the text of distinct parameters can coincide, as for the metric "a" with a unit
that restates the filters and the metric that restates them with the unit
"b". -/
theorem repository.summaryQuery_unambiguous (bucket start stop : String)
    (measurement₁ sensorID₁ unit₁ measurement₂ sensorID₂ unit₂ : String)
    (hm₁ : repository.QuoteFree measurement₁) (hs₁ : repository.QuoteFree sensorID₁)
    (hu₁ : repository.QuoteFree unit₁) (hm₂ : repository.QuoteFree measurement₂)
    (hs₂ : repository.QuoteFree sensorID₂) (hu₂ : repository.QuoteFree unit₂)
    (h : repository.summaryQuery bucket start stop measurement₁ sensorID₁ unit₁
      = repository.summaryQuery bucket start stop measurement₂ sensorID₂ unit₂) :
    (measurement₁ = measurement₂ ∧ sensorID₁ = sensorID₂ ∧ unit₁ = unit₂)
      ∧ (("a", "0102030405060708090a0b0c", repository.injectedUnit)
            ≠ (repository.injectedMeasurement, "0102030405060708090a0b0c", "b")
          ∧ repository.summaryQuery bucket start stop "a" "0102030405060708090a0b0c"
              repository.injectedUnit
            = repository.summaryQuery bucket start stop repository.injectedMeasurement
              "0102030405060708090a0b0c" "b") := by
  refine ⟨repository.summaryQuery_parameters_of_eq bucket start stop measurement₁ sensorID₁
    unit₁ measurement₂ sensorID₂ unit₂ hm₁.1 hs₁.1 hu₁.1 hm₂.1 hs₂.1 hu₂.1 h, by decide, ?_⟩
  apply String.ext
  simp only [repository.summaryQuery, repository.injectedUnit, repository.injectedMeasurement,
    String.data_append, List.append_assoc]
  rfl

/-- Witness of C18's theorem: the parameters temperature,
0102030405060708090a0b0c and celsius on both sides. -/
theorem repository.summaryQuery_unambiguous_witness :
    ("temperature" = "temperature" ∧ "0102030405060708090a0b0c" = "0102030405060708090a0b0c"
        ∧ "celsius" = "celsius")
      ∧ (("a", "0102030405060708090a0b0c", repository.injectedUnit)
            ≠ (repository.injectedMeasurement, "0102030405060708090a0b0c", "b")
          ∧ repository.summaryQuery "sensors" "2024-01-01T00:00:00Z" "2024-01-03T00:00:00Z" "a"
              "0102030405060708090a0b0c" repository.injectedUnit
            = repository.summaryQuery "sensors" "2024-01-01T00:00:00Z" "2024-01-03T00:00:00Z"
              repository.injectedMeasurement "0102030405060708090a0b0c" "b") :=
  repository.summaryQuery_unambiguous "sensors" "2024-01-01T00:00:00Z" "2024-01-03T00:00:00Z"
    "temperature" "0102030405060708090a0b0c" "celsius"
    "temperature" "0102030405060708090a0b0c" "celsius"
    (by decide) (by decide) (by decide) (by decide) (by decide) (by decide) rfl

/-! ## The time range -/

theorem repository.tallyCount_replicate (n : Nat) (c : Char) (rest : List Char)
    (hc : c ≠ '1') : repository.tallyCount (List.replicate n '1' ++ c :: rest) = n := by
  unfold repository.tallyCount
  rw [List.takeWhile_append_of_pos]
  · simp [List.takeWhile, hc]
  · intro a ha
    simp [List.eq_of_mem_replicate ha]

theorem repository.tallyQuery_data (a b : Nat) (measurement sensorID unit : String) :
    ∃ rest : List Char,
      (repository.summaryQuery "sensors" (String.mk (List.replicate a '1'))
          (String.mk (List.replicate b '1')) measurement sensorID unit).data
        = ("result = from(bucket: \"sensors\")\n\t\t\t|> range(start: " : String).data
          ++ (List.replicate a '1'
            ++ ((", stop: " : String).data ++ (List.replicate b '1' ++ ')' :: rest))) := by
  constructor
  · simp only [repository.summaryQuery, String.data_append, List.append_assoc]
    rfl

theorem repository.rangeCheckingQueryAPI_rejects (result : QueryTableResult) (a b : Nat)
    (h : b ≤ a) (measurement sensorID unit : String) :
    (repository.rangeCheckingQueryAPI result).Query
        (repository.summaryQuery "sensors" (String.mk (List.replicate a '1'))
          (String.mk (List.replicate b '1')) measurement sensorID unit)
      = .error
          (.driver "error in building plan while starting program: cannot query an empty range") := by
  obtain ⟨rest, hdata⟩ := repository.tallyQuery_data a b measurement sensorID unit
  have hstart : repository.tallyCount
      (List.replicate a '1' ++ ((", stop: " : String).data
        ++ (List.replicate b '1' ++ ')' :: rest))) = a :=
    repository.tallyCount_replicate a ',' _ (by decide)
  have hstop : repository.tallyCount (List.replicate b '1' ++ ')' :: rest) = b :=
    repository.tallyCount_replicate b ')' rest (by decide)
  simp only [repository.rangeCheckingQueryAPI, hdata]
  rw [List.drop_left' (by rfl), hstart, List.drop_left' (List.length_replicate a '1'),
    List.drop_left' (by rfl), hstop]
  simp [Nat.not_lt.mpr h]

theorem Time.sec_le_of_not_Before (start stop : Time) (h : start.Before stop = false) :
    stop.sec.toNat ≤ start.sec.toNat := by
  unfold Time.Before at h
  simp only [Bool.or_eq_false_iff, decide_eq_false_iff_not, not_lt] at h
  exact Int.toNat_le_toNat h.1

theorem repository.rangeCheckingRepository_rejects (result : QueryTableResult) :
    repository.RejectsEmptyRange (repository.rangeCheckingRepository result)
      repository.tallyFormat := by
  intro sensorID measurement unit start stop hrange
  exact ⟨_, repository.rangeCheckingQueryAPI_rejects result start.sec.toNat stop.sec.toNat
    (Time.sec_le_of_not_Before start stop hrange) measurement sensorID unit⟩

/-- C14, as stated, fails: with start equal to end and a store that answers the
query with no rows, the call returns the all-zero summary with nil error. -/
theorem repository.GetMeasurementSummary_equal_times_answered :
    Time.Before ⟨1700000000, 0⟩ ⟨1700000000, 0⟩ = false
      ∧ repository.MeasurementRepository.GetMeasurementSummary
          (repository.sampleMeasurementRepository (.ok ⟨[], none⟩)) repository.sampleFormat
          "0102030405060708090a0b0c" "temperature" "celsius"
          ⟨1700000000, 0⟩ ⟨1700000000, 0⟩
        = .ok { MinValue := .finite 0, MaxValue := .finite 0, MedianValue := .finite 0,
                MeanValue := .finite 0, Unit := "", Count := 0 } := by
  exact ⟨by decide, rfl⟩

/-- C14, amended: `GetMeasurementSummary` checks no range itself. For every
sensor id, metric name, unit and every pair of times whose start is not before
the end, when the store rejects the query of such a range the call returns the
store's error, wrapped as "failed to query measurement summary", and no
summary; and for any store that answers the query of these times, the call
returns what the row loop builds from the answer. -/
theorem repository.GetMeasurementSummary_empty_range (m : repository.MeasurementRepository)
    (formatRFC3339 : Time → String) (sensorID measurement unit : String) (start end_ : Time)
    (hstore : repository.RejectsEmptyRange m formatRFC3339)
    (hrange : start.Before end_ = false) :
    (∃ err,
        m.queryAPI.Query
            (repository.summaryQuery m.bucket (formatRFC3339 start) (formatRFC3339 end_)
              measurement sensorID unit) = .error err
          ∧ m.GetMeasurementSummary formatRFC3339 sensorID measurement unit start end_
            = .error (.wrap "failed to query measurement summary" err))
      ∧ ∀ (answering : repository.MeasurementRepository) (result : QueryTableResult),
          answering.queryAPI.Query
              (repository.summaryQuery answering.bucket (formatRFC3339 start)
                (formatRFC3339 end_) measurement sensorID unit) = .ok result →
          answering.GetMeasurementSummary formatRFC3339 sensorID measurement unit start end_
            = repository.summaryLoop repository.emptySummary result.rows := by
  obtain ⟨err, herr⟩ := hstore sensorID measurement unit start end_ hrange
  refine ⟨⟨err, herr, ?_⟩, ?_⟩
  · simp only [repository.MeasurementRepository.GetMeasurementSummary, herr]
  · intro answering result hanswer
    simp only [repository.MeasurementRepository.GetMeasurementSummary, hanswer]

/-- Witness of C14's amended theorem: a store that reads the range and answers
the range from 0 to 2 with five tables, queried from 5 to 3. -/
theorem repository.GetMeasurementSummary_empty_range_witness :
    (repository.rangeCheckingRepository repository.fiveTables).queryAPI.Query
        (repository.summaryQuery "sensors" (repository.tallyFormat ⟨0, 0⟩)
          (repository.tallyFormat ⟨2, 0⟩) "temperature" "0102030405060708090a0b0c" "celsius")
        = .ok repository.fiveTables
      ∧ ∃ err,
          (repository.rangeCheckingRepository repository.fiveTables).queryAPI.Query
              (repository.summaryQuery
                (repository.rangeCheckingRepository repository.fiveTables).bucket
                (repository.tallyFormat ⟨5, 0⟩) (repository.tallyFormat ⟨3, 0⟩)
                "temperature" "0102030405060708090a0b0c" "celsius") = .error err
            ∧ repository.MeasurementRepository.GetMeasurementSummary
                (repository.rangeCheckingRepository repository.fiveTables)
                repository.tallyFormat "0102030405060708090a0b0c" "temperature" "celsius"
                ⟨5, 0⟩ ⟨3, 0⟩
              = .error (.wrap "failed to query measurement summary" err) :=
  ⟨rfl,
    (repository.GetMeasurementSummary_empty_range
      (repository.rangeCheckingRepository repository.fiveTables) repository.tallyFormat
      "0102030405060708090a0b0c" "temperature" "celsius" ⟨5, 0⟩ ⟨3, 0⟩
      (repository.rangeCheckingRepository_rejects repository.fiveTables) rfl).1⟩

/-! ## The passes of the query -/

theorem repository.passes_text :
    "\t\tresult\n"
        ++ "\t\t\t|> aggregateWindow(every: 1d, fn: mean, createEmpty: false)\n"
        ++ "\t\t\t|> yield(name: \"mean\")\n"
        ++ "\n"
        ++ "\t\tresult\n"
        ++ "\t\t\t|> aggregateWindow(every: 1d, fn: median, createEmpty: false)\n"
        ++ "\t\t\t|> yield(name: \"median\")\n"
        ++ "\n"
        ++ "\t\tresult\n"
        ++ "\t\t\t|> count()\n"
        ++ "\t\t\t|> yield(name: \"count\")\n"
        ++ "\n"
        ++ "\t\tresult\n"
        ++ "\t\t\t|> min()\n"
        ++ "\t\t\t|> yield(name: \"min\")\n"
        ++ "\n"
        ++ "\t\tresult\n"
        ++ "\t\t\t|> min()\n"
        ++ "\t\t\t|> yield(name: \"max\")"
      = String.intercalate "\n\n" (repository.summaryPasses.map repository.renderPass) := by
  decide!

theorem repository.summaryQuery_eq_baseSet_passes
    (bucket start stop measurement sensorID unit : String) :
    repository.summaryQuery bucket start stop measurement sensorID unit
      = repository.baseSet bucket start stop measurement sensorID unit
        ++ String.intercalate "\n\n" (repository.summaryPasses.map repository.renderPass) := by
  rw [← repository.passes_text]
  simp only [repository.summaryQuery, repository.baseSet, String.append_assoc]

theorem repository.Lexer.inLiteral_stable (names : List String) (text : List Char)
    (h : ∀ c ∈ text, c ≠ '"' ∧ c ≠ '\\') :
    text.foldl repository.Lexer.step (repository.Lexer.inLiteral names)
      = repository.Lexer.inLiteral names := by
  induction text with
  | nil => rfl
  | cons c rest ih =>
    obtain ⟨hq, hb⟩ := h c (List.mem_cons_self _ _)
    have hstep : repository.Lexer.step (repository.Lexer.inLiteral names) c
        = repository.Lexer.inLiteral names := by
      simp [repository.Lexer.step, repository.Lexer.inLiteral, hq, hb]
    rw [List.foldl_cons, hstep]
    exact ih fun d hd => h d (List.mem_cons_of_mem _ hd)

theorem repository.Lexer.init_stable (text : List Char)
    (h : ∀ c ∈ text, c ≠ '"' ∧ c ≠ 'y') :
    text.foldl repository.Lexer.step repository.Lexer.init = repository.Lexer.init := by
  induction text with
  | nil => rfl
  | cons c rest ih =>
    obtain ⟨hq, hy⟩ := h c (List.mem_cons_self _ _)
    have hstep : repository.Lexer.step repository.Lexer.init c = repository.Lexer.init := by
      have hy' : ¬ 'y' = c := fun e => hy e.symm
      simp [repository.Lexer.step, repository.Lexer.init, repository.yieldMarker, hq, hy, hy']
    rw [List.foldl_cons, hstep]
    exact ih fun d hd => h d (List.mem_cons_of_mem _ hd)

theorem repository.RangeText_chars (s : String) (h : repository.RangeText s) :
    ∀ c ∈ s.data, c ≠ '"' ∧ c ≠ 'y' := by
  intro c hc
  have hchar := h c hc
  constructor
  · rintro rfl
    revert hchar
    decide
  · rintro rfl
    revert hchar
    decide

theorem repository.QuoteFree_chars (s : String) (h : repository.QuoteFree s) :
    ∀ c ∈ s.data, c ≠ '"' ∧ c ≠ '\\' := by
  intro c hc
  exact ⟨fun e => h.1 (e ▸ hc), fun e => h.2.1 (e ▸ hc)⟩

theorem repository.summaryQuery_data (bucket start stop measurement sensorID unit : String) :
    ∃ passes : List Char,
      (repository.summaryQuery bucket start stop measurement sensorID unit).data
          = ("result = from(bucket: \"" : String).data
            ++ (bucket.data
            ++ (("\")\n\t\t\t|> range(start: " : String).data
            ++ (start.data
            ++ ((", stop: " : String).data
            ++ (stop.data
            ++ ((")\n\t\t\t|> filter(fn: (r) => r[\"_measurement\"] == \"" : String).data
            ++ (measurement.data
            ++ (("\")\n\t\t\t|> filter(fn: (r) => r[\"sensor_id\"] == \"" : String).data
            ++ (sensorID.data
            ++ (("\")\n\t\t\t|> filter(fn: (r) => r[\"unit\"] == \"" : String).data
            ++ (unit.data ++ passes)))))))))))
        ∧ passes.foldl repository.Lexer.step (repository.Lexer.inLiteral [])
          = { inString := false, escaped := false, matched := 0, naming := false, name := [],
              names := ["mean", "median", "count", "min", "max"] } := by
  constructor
  constructor
  · simp only [repository.summaryQuery, String.data_append, List.append_assoc]
    rfl
  · decide!

theorem repository.yieldNames_of_plain_parameters
    (bucket start stop measurement sensorID unit : String)
    (hbucket : repository.QuoteFree bucket) (hstart : repository.RangeText start)
    (hstop : repository.RangeText stop) (hmeasurement : repository.QuoteFree measurement)
    (hsensorID : repository.QuoteFree sensorID) (hunit : repository.QuoteFree unit) :
    repository.yieldNames
        (repository.summaryQuery bucket start stop measurement sensorID unit)
      = ["mean", "median", "count", "min", "max"] := by
  obtain ⟨passes, hdata, hpasses⟩ :=
    repository.summaryQuery_data bucket start stop measurement sensorID unit
  have h0 : ("result = from(bucket: \"" : String).data.foldl repository.Lexer.step
      repository.Lexer.init = repository.Lexer.inLiteral [] := by decide!
  have h1 : ("\")\n\t\t\t|> range(start: " : String).data.foldl repository.Lexer.step
      (repository.Lexer.inLiteral []) = repository.Lexer.init := by decide!
  have h2 : (", stop: " : String).data.foldl repository.Lexer.step
      repository.Lexer.init = repository.Lexer.init := by decide!
  have h3 : (")\n\t\t\t|> filter(fn: (r) => r[\"_measurement\"] == \"" : String).data.foldl
      repository.Lexer.step repository.Lexer.init = repository.Lexer.inLiteral [] := by
    decide!
  have h4 : ("\")\n\t\t\t|> filter(fn: (r) => r[\"sensor_id\"] == \"" : String).data.foldl
      repository.Lexer.step (repository.Lexer.inLiteral []) = repository.Lexer.inLiteral [] := by
    decide!
  have h5 : ("\")\n\t\t\t|> filter(fn: (r) => r[\"unit\"] == \"" : String).data.foldl
      repository.Lexer.step (repository.Lexer.inLiteral []) = repository.Lexer.inLiteral [] := by
    decide!
  unfold repository.yieldNames
  rw [hdata]
  iterate 12 rw [List.foldl_append]
  rw [h0, repository.Lexer.inLiteral_stable [] bucket.data
      (repository.QuoteFree_chars bucket hbucket),
    h1, repository.Lexer.init_stable start.data (repository.RangeText_chars start hstart),
    h2, repository.Lexer.init_stable stop.data (repository.RangeText_chars stop hstop),
    h3, repository.Lexer.inLiteral_stable [] measurement.data
      (repository.QuoteFree_chars measurement hmeasurement),
    h4, repository.Lexer.inLiteral_stable [] sensorID.data
      (repository.QuoteFree_chars sensorID hsensorID),
    h5, repository.Lexer.inLiteral_stable [] unit.data
      (repository.QuoteFree_chars unit hunit),
    hpasses]

theorem repository.lastTableValue_cons (label : String) (row : RowState)
    (rest : List RowState) :
    repository.lastTableValue label (row :: rest)
      = match repository.lastTableValue label rest with
        | some v => some v
        | none =>
          if row.TableChanged = true ∧ row.Record.Result = label then some row.Record.Value
          else none :=
  rfl

theorem repository.lastTableValue_append (label : String) (front back : List RowState) :
    repository.lastTableValue label (front ++ back)
      = match repository.lastTableValue label back with
        | some v => some v
        | none => repository.lastTableValue label front := by
  induction front with
  | nil =>
    rw [List.nil_append]
    cases repository.lastTableValue label back <;> rfl
  | cons row rest ih =>
    rw [List.cons_append, repository.lastTableValue_cons, ih, repository.lastTableValue_cons]
    cases repository.lastTableValue label back <;> rfl

theorem repository.lastTableValue_relabel_other (label name : String) (h : name ≠ label)
    (rows : List RowState) :
    repository.lastTableValue label (rows.map (repository.relabel name)) = none := by
  induction rows with
  | nil => rfl
  | cons row rest ih =>
    rw [List.map_cons, repository.lastTableValue_cons, ih]
    simp only [repository.relabel, h, and_false, if_false]

theorem repository.lastTableValue_relabel_same (first second : String)
    (rows : List RowState) :
    repository.lastTableValue first (rows.map (repository.relabel first))
      = repository.lastTableValue second (rows.map (repository.relabel second)) := by
  induction rows with
  | nil => rfl
  | cons row rest ih =>
    rw [List.map_cons, List.map_cons, repository.lastTableValue_cons,
      repository.lastTableValue_cons, ih]
    simp only [repository.relabel, and_true]

theorem repository.honouredRows_max_eq_min (tables : String → List RowState) :
    repository.lastTableValue "max" (repository.honouredRows tables repository.summaryPasses)
      = repository.lastTableValue "min"
          (repository.honouredRows tables repository.summaryPasses) := by
  simp only [repository.honouredRows, repository.summaryPasses, List.append_nil,
    repository.lastTableValue_append]
  rw [repository.lastTableValue_relabel_other "max" "min" (by decide),
    repository.lastTableValue_relabel_other "max" "count" (by decide),
    repository.lastTableValue_relabel_other "max" "median" (by decide),
    repository.lastTableValue_relabel_other "max" "mean" (by decide),
    repository.lastTableValue_relabel_other "min" "max" (by decide),
    repository.lastTableValue_relabel_other "min" "count" (by decide),
    repository.lastTableValue_relabel_other "min" "median" (by decide),
    repository.lastTableValue_relabel_other "min" "mean" (by decide),
    repository.lastTableValue_relabel_same "max" "min" (tables "min()")]
  cases repository.lastTableValue "min"
    ((tables "min()").map (repository.relabel "min")) <;> rfl

/-- C16, as stated, fails: with the unit `celsius") |> yield(name: "sixth` the
query text yields six named results, the first of them "sixth". -/
theorem repository.summaryQuery_yields_sixth_result :
    repository.yieldNames
        (repository.summaryQuery "sensors" "2024-01-01T00:00:00Z" "2024-01-03T00:00:00Z"
          "temperature" "0102030405060708090a0b0c" repository.yieldingUnit)
      = ["sixth", "mean", "median", "count", "min", "max"] := by
  decide!

/-- C16, amended: for a bucket, metric name, sensor id and unit without double
quote, backslash or newline and a time range rendered in the characters of
RFC 3339, the query text is the base set followed by five passes and yields
exactly the results mean, median, count, min and max; the pass yielded as "max"
applies `min()`, the reduction of the pass yielded as "min"; so when the rows
are those of a store that honours the passes, a returned summary has MaxValue
equal to MinValue. -/
theorem repository.summaryQuery_passes (m : repository.MeasurementRepository)
    (formatRFC3339 : Time → String) (sensorID measurement unit : String) (start end_ : Time)
    (hbucket : repository.QuoteFree m.bucket)
    (hstart : repository.RangeText (formatRFC3339 start))
    (hend : repository.RangeText (formatRFC3339 end_))
    (hmeasurement : repository.QuoteFree measurement)
    (hsensorID : repository.QuoteFree sensorID) (hunit : repository.QuoteFree unit) :
    repository.summaryQuery m.bucket (formatRFC3339 start) (formatRFC3339 end_)
          measurement sensorID unit
        = repository.baseSet m.bucket (formatRFC3339 start) (formatRFC3339 end_)
            measurement sensorID unit
          ++ String.intercalate "\n\n" (repository.summaryPasses.map repository.renderPass)
      ∧ repository.yieldNames
          (repository.summaryQuery m.bucket (formatRFC3339 start) (formatRFC3339 end_)
            measurement sensorID unit)
        = ["mean", "median", "count", "min", "max"]
      ∧ repository.summaryPasses.map Prod.snd = ["mean", "median", "count", "min", "max"]
      ∧ (repository.summaryPasses.filter fun pass => pass.2 = "min") = [("min()", "min")]
      ∧ (repository.summaryPasses.filter fun pass => pass.2 = "max") = [("min()", "max")]
      ∧ ∀ (tables : String → List RowState) (result : QueryTableResult)
          (summary : repository.MeasurementSummary),
          m.queryAPI.Query
              (repository.summaryQuery m.bucket (formatRFC3339 start) (formatRFC3339 end_)
                measurement sensorID unit) = .ok result →
          result.rows = repository.honouredRows tables repository.summaryPasses →
          m.GetMeasurementSummary formatRFC3339 sensorID measurement unit start end_
            = .ok summary →
          summary.MaxValue = summary.MinValue := by
  refine ⟨repository.summaryQuery_eq_baseSet_passes _ _ _ _ _ _,
    repository.yieldNames_of_plain_parameters _ _ _ _ _ _ hbucket hstart hend hmeasurement
      hsensorID hunit,
    by decide, by decide, by decide, ?_⟩
  intro tables result summary hquery hrows hsummary
  simp only [repository.MeasurementRepository.GetMeasurementSummary, hquery] at hsummary
  have hfields := repository.summaryLoop_fieldOf result.rows repository.emptySummary summary
    hsummary
  have hmax := hfields "max" (by decide)
  have hmin := hfields "min" (by decide)
  rw [hrows, repository.honouredRows_max_eq_min tables, ← hrows] at hmax
  have hmax' : Value.float64 summary.MaxValue
      = (repository.lastTableValue "min" result.rows).getD (.float64 (.finite 0)) := hmax
  have hmin' : Value.float64 summary.MinValue
      = (repository.lastTableValue "min" result.rows).getD (.float64 (.finite 0)) := hmin
  exact Value.float64.inj (hmax'.trans hmin'.symm)

/-- Witness of C16's amended theorem: the sample parameters and a store that
answers `min()` with 15. -/
theorem repository.summaryQuery_passes_witness :
    repository.yieldNames
        (repository.summaryQuery "sensors" (repository.tallyFormat ⟨0, 0⟩)
          (repository.tallyFormat ⟨2, 0⟩) "temperature" "0102030405060708090a0b0c" "celsius")
        = ["mean", "median", "count", "min", "max"]
      ∧ Float64.finite 15 = Float64.finite 15 :=
  ⟨(repository.summaryQuery_passes
      (repository.sampleMeasurementRepository
        (.ok ⟨repository.honouredRows repository.sampleTables repository.summaryPasses, none⟩))
      repository.tallyFormat "0102030405060708090a0b0c" "temperature" "celsius" ⟨0, 0⟩ ⟨2, 0⟩
      (by decide) (by decide) (by decide) (by decide) (by decide) (by decide)).2.1,
    (repository.summaryQuery_passes
      (repository.sampleMeasurementRepository
        (.ok ⟨repository.honouredRows repository.sampleTables repository.summaryPasses, none⟩))
      repository.tallyFormat "0102030405060708090a0b0c" "temperature" "celsius" ⟨0, 0⟩ ⟨2, 0⟩
      (by decide) (by decide) (by decide) (by decide) (by decide) (by decide)).2.2.2.2.2
      repository.sampleTables
      ⟨repository.honouredRows repository.sampleTables repository.summaryPasses, none⟩
      { MinValue := .finite 15, MaxValue := .finite 15, MedianValue := .finite 30,
        MeanValue := .finite 30, Unit := "celsius", Count := 10 }
      rfl rfl rfl⟩

end Pingthings
